import Mathlib

/-!
Verification development for the HSReplay power-log parser (`src/main.py`).

The Python source is shallowly embedded: every regular expression of the
source is modelled by an executable matcher over `List Char` that follows
the backtracking semantics of Python `re.match` on the concrete pattern
(greedy groups resolved to the rightmost viable split), and the stateful
parser (`PowerLogParser`) is modelled by explicit state passing over a
node arena, with Python exceptions modelled by `Except String`.
-/

deriving instance DecidableEq for Except

namespace HSRep

/-- Python `str.lstrip()` on the whitespace characters that occur in power
logs (space, tab, CR, LF). -/
def lstripL : List Char → List Char
  | [] => []
  | c :: cs => if c.isWhitespace then lstripL cs else c :: cs

/-- `str.lstrip` lifted to `String`. -/
def pylstrip (s : String) : String := ⟨lstripL s.toList⟩

/-- Python regex `\w` on ASCII input: letter, digit or underscore. -/
def isWordCh (c : Char) : Bool := c.isAlphanum || c = '_'

/-- Match a literal prefix; return the remainder on success.  Models a
literal fragment of a Python regex under `re.match`. -/
def dropLit : List Char → List Char → Option (List Char)
  | [], r => some r
  | _, [] => none
  | p :: ps, c :: cs => if p = c then dropLit ps cs else none

/-- All splits `(init, tail)` of `l` with `init` nonempty, ordered by
decreasing `init` length (i.e. the rightmost split first).  Mirrors the
candidate order a greedy `.+` group explores while backtracking. -/
def splitsDesc (l : List Char) : List (List Char × List Char) :=
  (List.range l.length).map (fun k => (l.take (l.length - k), l.drop (l.length - k)))

/-- All splits `(init, tail)` of `l`, the empty `init` included, ordered by
decreasing `init` length.  Mirrors a greedy `.*` group. -/
def splitsDescAll (l : List Char) : List (List Char × List Char) :=
  (List.range (l.length + 1)).map (fun k => (l.take (l.length - k), l.drop (l.length - k)))

/-- Maximal run of characters satisfying `p` (a greedy `\w+` / `\d+`):
returns `(run, rest)`. -/
def spanP (p : Char → Bool) : List Char → List Char × List Char
  | [] => ([], [])
  | c :: cs =>
    if p c then
      let (r, rest) := spanP p cs
      (c :: r, rest)
    else ([], c :: cs)

/-- Greedy `(\w+)`: at least one word character, then the remainder. -/
def wordRun (l : List Char) : Option (List Char × List Char) :=
  let (r, rest) := spanP isWordCh l
  if r = [] then none else some (r, rest)

/-- Greedy `(\d+)`: at least one digit, then the remainder. -/
def digitRun (l : List Char) : Option (List Char × List Char) :=
  let (r, rest) := spanP Char.isDigit l
  if r = [] then none else some (r, rest)

/-- Python `str.isdigit()` for ASCII strings: nonempty, digits only. -/
def pyIsDigit (s : String) : Bool :=
  !s.toList.isEmpty && s.toList.all Char.isDigit

/-- Python `str.startswith` for one-character prefixes. -/
def startsWithCh (s : String) (c : Char) : Bool :=
  match s.toList with
  | [] => false
  | d :: _ => d = c

/-- A `(\[.+\])` group: the bracketed-descriptor shape — at least three
characters, first `[`, last `]`. -/
def bracketGrp (g : List Char) : Bool :=
  match g with
  | '[' :: (c :: cs) => (c :: cs).getLastD ' ' = ']'
  | _ => false

/-- Python `repr` of a plain string without quotes or escapes in it (the
only shape the source formats with `%r`). -/
def pyRepr (s : String) : String := ⟨'\x27' :: (s.toList ++ ['\x27'])⟩

/-!  `ENTITY_RE = re.compile("\[.*\s*id=(\d+)\s*.*\]")`, used with
`re.match`: the input must start with `[`, and the group is the digit run
of the rightmost `id=<digits>` occurrence that has some `]` at or after
the end of its digits.  -/

/-- Tail test for `ENTITY_RE` at one candidate position: literal `id=`,
at least one digit, and a `]` somewhere at or after the digit run. -/
def idTail (t : List Char) : Option String :=
  match dropLit "id=".toList t with
  | none => none
  | some r =>
    match digitRun r with
    | none => none
    | some (ds, r2) => if r2.contains ']' then some ⟨ds⟩ else none

/-- `ENTITY_RE.match(data)`: the extracted id group, if any. -/
def entityREMatch (s : String) : Option String :=
  match s.toList with
  | '[' :: rest =>
    match (splitsDescAll rest).find? (fun p => (idTail p.2).isSome) with
    | some (_, t) => idTail t
    | none => none
  | _ => none

/-! Matchers for the grammar-rule regexes of `handle_data` and the
auxiliary handlers. Each one models `RE.match(data)` on the stripped
payload and returns the tuple of groups. -/

/-- `ACTION_TAG_RE = tag=(\w+) value=(\w+)` (trailing text permitted). -/
def actionTagMatch (s : String) : Option (String × String) :=
  match dropLit "tag=".toList s.toList with
  | none => none
  | some r1 =>
    match wordRun r1 with
    | none => none
    | some (w1, r2) =>
      match dropLit " value=".toList r2 with
      | none => none
      | some r3 =>
        match wordRun r3 with
        | none => none
        | some (w2, _) => some (⟨w1⟩, ⟨w2⟩)

/-- Shared tail ` tag=(\w+) value=(\w+)` of `ACTION_TAGCHANGE_RE` and
`ACTION_HIDEENTITY_RE` (trailing text permitted). -/
def tagValueTail (t : List Char) : Option (String × String) :=
  match dropLit " tag=".toList t with
  | none => none
  | some r1 =>
    match wordRun r1 with
    | none => none
    | some (w1, r2) =>
      match dropLit " value=".toList r2 with
      | none => none
      | some r3 =>
        match wordRun r3 with
        | none => none
        | some (w2, _) => some (⟨w1⟩, ⟨w2⟩)

/-- `ACTION_TAGCHANGE_RE = TAG_CHANGE Entity=(\[?.+\]?) tag=(\w+) value=(\w+)`:
the entity group is the longest nonempty prefix whose remainder matches
the ` tag=… value=…` tail. -/
def tagChangeMatch (s : String) : Option (String × String × String) :=
  match dropLit "TAG_CHANGE Entity=".toList s.toList with
  | none => none
  | some rest =>
    match (splitsDesc rest).find? (fun p => (tagValueTail p.2).isSome) with
    | none => none
    | some (g, t) =>
      match tagValueTail t with
      | none => none
      | some (w1, w2) => some (⟨g⟩, w1, w2)

/-- Tail ` (?:SubType|BlockType)=(\w+) Index=(-1|\d+) Target=(\[?.+\]?)$`
of `ACTION_START_RE`; returns (type, index, target). -/
def actionStartTail (t : List Char) : Option (String × String × String) :=
  let afterKey : Option (List Char) :=
    match dropLit " SubType=".toList t with
    | some r => some r
    | none => dropLit " BlockType=".toList t
  match afterKey with
  | none => none
  | some r1 =>
    match wordRun r1 with
    | none => none
    | some (ty, r2) =>
      match dropLit " Index=".toList r2 with
      | none => none
      | some r3 =>
        let idxRest : Option (List Char × List Char) :=
          match dropLit "-1".toList r3 with
          | some r4 => some ("-1".toList, r4)
          | none => digitRun r3
        match idxRest with
        | none => none
        | some (ix, r5) =>
          match dropLit " Target=".toList r5 with
          | none => none
          | some tg => if tg = [] then none else some (⟨ty⟩, ⟨ix⟩, ⟨tg⟩)

/-- `ACTION_START_RE`: returns (entity, type, index, target). -/
def actionStartMatch (s : String) : Option (String × String × String × String) :=
  match dropLit "ACTION_START Entity=".toList s.toList with
  | none => none
  | some rest =>
    match (splitsDesc rest).find? (fun p => (actionStartTail p.2).isSome) with
    | none => none
    | some (g, t) =>
      match actionStartTail t with
      | none => none
      | some (ty, ix, tg) => some (⟨g⟩, ty, ix, tg)

/-- Tail ` CardID=(\w+)?$`: end-anchored, the group possibly absent. -/
def cardIdTail (t : List Char) : Option (Option String) :=
  match dropLit " CardID=".toList t with
  | none => none
  | some r =>
    if r = [] then some none
    else if r.all isWordCh then some (some ⟨r⟩) else none

/-- `ACTION_FULLENTITY_RE_1 = FULL_ENTITY - Updating (\[.+\]) CardID=(\w+)?$`. -/
def fullEntity1Match (s : String) : Option (String × Option String) :=
  match dropLit "FULL_ENTITY - Updating ".toList s.toList with
  | none => none
  | some rest =>
    match (splitsDesc rest).find? (fun p => bracketGrp p.1 && (cardIdTail p.2).isSome) with
    | none => none
    | some (g, t) =>
      match cardIdTail t with
      | none => none
      | some c => some (⟨g⟩, c)

/-- `ACTION_FULLENTITY_RE_2 = FULL_ENTITY - Creating ID=(\d+) CardID=(\w+)?$`. -/
def fullEntity2Match (s : String) : Option (String × Option String) :=
  match dropLit "FULL_ENTITY - Creating ID=".toList s.toList with
  | none => none
  | some r1 =>
    match digitRun r1 with
    | none => none
    | some (ds, r2) =>
      match cardIdTail r2 with
      | none => none
      | some c => some (⟨ds⟩, c)

/-- Tail ` CardID=(\w+)$` of `ACTION_SHOWENTITY_RE`: end-anchored,
mandatory group. -/
def showCardTail (t : List Char) : Option String :=
  match dropLit " CardID=".toList t with
  | none => none
  | some r => if r ≠ [] && r.all isWordCh then some ⟨r⟩ else none

/-- `ACTION_SHOWENTITY_RE = SHOW_ENTITY - Updating Entity=(\[?.+\]?) CardID=(\w+)$`. -/
def showEntityMatch (s : String) : Option (String × String) :=
  match dropLit "SHOW_ENTITY - Updating Entity=".toList s.toList with
  | none => none
  | some rest =>
    match (splitsDesc rest).find? (fun p => (showCardTail p.2).isSome) with
    | none => none
    | some (g, t) =>
      match showCardTail t with
      | none => none
      | some c => some (⟨g⟩, c)

/-- `ACTION_HIDEENTITY_RE = HIDE_ENTITY - Entity=(\[.+\]) tag=(\w+) value=(\w+)`. -/
def hideEntityMatch (s : String) : Option (String × String × String) :=
  match dropLit "HIDE_ENTITY - Entity=".toList s.toList with
  | none => none
  | some rest =>
    match (splitsDesc rest).find? (fun p => bracketGrp p.1 && (tagValueTail p.2).isSome) with
    | none => none
    | some (g, t) =>
      match tagValueTail t with
      | none => none
      | some (w1, w2) => some (⟨g⟩, w1, w2)

/-- Tail ` Info=(\d+)` of `ACTION_METADATA_RE` (trailing text permitted). -/
def infoTail (t : List Char) : Option String :=
  match dropLit " Info=".toList t with
  | none => none
  | some r =>
    match digitRun r with
    | none => none
    | some (ds, _) => some ⟨ds⟩

/-- `ACTION_METADATA_RE = META_DATA - Meta=(\w+) Data=(\[?.+\]?) Info=(\d+)`. -/
def metaDataMatch (s : String) : Option (String × String × String) :=
  match dropLit "META_DATA - Meta=".toList s.toList with
  | none => none
  | some r1 =>
    match wordRun r1 with
    | none => none
    | some (m, r2) =>
      match dropLit " Data=".toList r2 with
      | none => none
      | some rest =>
        match (splitsDesc rest).find? (fun p => (infoTail p.2).isSome) with
        | none => none
        | some (g, t) =>
          match infoTail t with
          | none => none
          | some i => some (⟨m⟩, ⟨g⟩, i)

/-- `ACTION_CREATEGAME_RE = GameEntity EntityID=(\d+)` (trailing text
permitted). -/
def createGameMatch (s : String) : Option String :=
  match dropLit "GameEntity EntityID=".toList s.toList with
  | none => none
  | some r =>
    match digitRun r with
    | none => none
    | some (ds, _) => some ⟨ds⟩

/-- `ACTION_CREATEGAME_PLAYER_RE =
Player EntityID=(\d+) PlayerID=(\d+) GameAccountId=\[hi=(\d+) lo=(\d+)\]$`. -/
def playerMatch (s : String) : Option (String × String × String × String) :=
  match dropLit "Player EntityID=".toList s.toList with
  | none => none
  | some r1 =>
    match digitRun r1 with
    | none => none
    | some (i, r2) =>
      match dropLit " PlayerID=".toList r2 with
      | none => none
      | some r3 =>
        match digitRun r3 with
        | none => none
        | some (p, r4) =>
          match dropLit " GameAccountId=[hi=".toList r4 with
          | none => none
          | some r5 =>
            match digitRun r5 with
            | none => none
            | some (hi, r6) =>
              match dropLit " lo=".toList r6 with
              | none => none
              | some r7 =>
                match digitRun r7 with
                | none => none
                | some (lo, r8) =>
                  if r8 = [']'] then some (⟨i⟩, ⟨p⟩, ⟨hi⟩, ⟨lo⟩) else none

/-- `CHOICES_CHOICE_RE =
id=(\d+) PlayerId=(\d+) ChoiceType=(\w+) CountMin=(\d+) CountMax=(\d+)$`. -/
def choicesChoiceMatch (s : String) :
    Option (String × String × String × String × String) :=
  match dropLit "id=".toList s.toList with
  | none => none
  | some r1 =>
    match digitRun r1 with
    | none => none
    | some (i, r2) =>
      match dropLit " PlayerId=".toList r2 with
      | none => none
      | some r3 =>
        match digitRun r3 with
        | none => none
        | some (p, r4) =>
          match dropLit " ChoiceType=".toList r4 with
          | none => none
          | some r5 =>
            match wordRun r5 with
            | none => none
            | some (ty, r6) =>
              match dropLit " CountMin=".toList r6 with
              | none => none
              | some r7 =>
                match digitRun r7 with
                | none => none
                | some (mn, r8) =>
                  match dropLit " CountMax=".toList r8 with
                  | none => none
                  | some r9 =>
                    match digitRun r9 with
                    | none => none
                    | some (mx, r10) =>
                      if r10 = [] then some (⟨i⟩, ⟨p⟩, ⟨ty⟩, ⟨mn⟩, ⟨mx⟩) else none

/-- `CHOICES_SOURCE_RE = Source=(\[?.+\]?)$`. -/
def choicesSourceMatch (s : String) : Option String :=
  match dropLit "Source=".toList s.toList with
  | none => none
  | some r => if r = [] then none else some ⟨r⟩

/-- `CHOICES_ENTITIES_RE = Entities\[(\d+)\]=(\[.+\])$`. -/
def choicesEntitiesMatch (s : String) : Option (String × String) :=
  match dropLit "Entities[".toList s.toList with
  | none => none
  | some r1 =>
    match digitRun r1 with
    | none => none
    | some (ix, r2) =>
      match dropLit "]=".toList r2 with
      | none => none
      | some r3 => if bracketGrp r3 then some (⟨ix⟩, ⟨r3⟩) else none

/-- `SEND_CHOICES_CHOICETYPE_RE = id=(\d+) ChoiceType=(.+)$`. -/
def sendChoicesTypeMatch (s : String) : Option (String × String) :=
  match dropLit "id=".toList s.toList with
  | none => none
  | some r1 =>
    match digitRun r1 with
    | none => none
    | some (i, r2) =>
      match dropLit " ChoiceType=".toList r2 with
      | none => none
      | some r3 => if r3 = [] then none else some (⟨i⟩, ⟨r3⟩)

/-- `SEND_CHOICES_ENTITIES_RE = m_chosenEntities\[(\d+)\]=(\[.+\])$`. -/
def sendChoicesEntitiesMatch (s : String) : Option (String × String) :=
  match dropLit "m_chosenEntities[".toList s.toList with
  | none => none
  | some r1 =>
    match digitRun r1 with
    | none => none
    | some (ix, r2) =>
      match dropLit "]=".toList r2 with
      | none => none
      | some r3 => if bracketGrp r3 then some (⟨ix⟩, ⟨r3⟩) else none

/-- `OPTIONS_ENTITY_RE = id=(\d+)$`. -/
def optionsEntityMatch (s : String) : Option String :=
  match dropLit "id=".toList s.toList with
  | none => none
  | some r =>
    match digitRun r with
    | none => none
    | some (i, r2) => if r2 = [] then some ⟨i⟩ else none

/-- `OPTIONS_OPTION_RE = option (\d+) type=(\w+) mainEntity=(.*)$`. -/
def optionsOptionMatch (s : String) : Option (String × String × String) :=
  match dropLit "option ".toList s.toList with
  | none => none
  | some r1 =>
    match digitRun r1 with
    | none => none
    | some (ix, r2) =>
      match dropLit " type=".toList r2 with
      | none => none
      | some r3 =>
        match wordRun r3 with
        | none => none
        | some (ty, r4) =>
          match dropLit " mainEntity=".toList r4 with
          | none => none
          | some r5 => some (⟨ix⟩, ⟨ty⟩, ⟨r5⟩)

/-- `OPTIONS_SUBOPTION_RE = (subOption|target) (\d+) entity=(.*)$`:
returns (kind, index, entity), `kind` being `subOption` or `target`. -/
def optionsSubOptionMatch (s : String) : Option (String × String × String) :=
  let afterKey : Option (String × List Char) :=
    match dropLit "subOption".toList s.toList with
    | some r => some ("subOption", r)
    | none =>
      match dropLit "target".toList s.toList with
      | some r => some ("target", r)
      | none => none
  match afterKey with
  | none => none
  | some (k, r1) =>
    match dropLit " ".toList r1 with
    | none => none
    | some r2 =>
      match digitRun r2 with
      | none => none
      | some (ix, r3) =>
        match dropLit " entity=".toList r3 with
        | none => none
        | some r4 => some (k, ⟨ix⟩, ⟨r4⟩)

/-- `SEND_OPTION_RE = selectedOption=(\d+) selectedSubOption=(-1|\d+)
selectedTarget=(\d+) selectedPosition=(\d+)` (trailing text permitted). -/
def sendOptionMatch (s : String) :
    Option (String × String × String × String) :=
  match dropLit "selectedOption=".toList s.toList with
  | none => none
  | some r1 =>
    match digitRun r1 with
    | none => none
    | some (o, r2) =>
      match dropLit " selectedSubOption=".toList r2 with
      | none => none
      | some r3 =>
        let subRest : Option (List Char × List Char) :=
          match dropLit "-1".toList r3 with
          | some r4 => some ("-1".toList, r4)
          | none => digitRun r3
        match subRest with
        | none => none
        | some (so, r5) =>
          match dropLit " selectedTarget=".toList r5 with
          | none => none
          | some r6 =>
            match digitRun r6 with
            | none => none
            | some (tg, r7) =>
              match dropLit " selectedPosition=".toList r7 with
              | none => none
              | some r8 =>
                match digitRun r8 with
                | none => none
                | some (ps, _) => some (⟨o⟩, ⟨so⟩, ⟨tg⟩, ⟨ps⟩)

/-!  Data model.

Python objects live in a node arena (`List PNode`); object references are
arena indices, which models the aliasing the source relies on (several
cursors pointing at the same mutable node).  The ad-hoc Python
attributes (`players`, `playernodes`, `first_player`, `second_player`,
`id`) are fields of `PNode`, meaningful when `kind = "Game"`.  -/

/-- An attribute value: Python `None`, a plain string, or a deferred
`PlayerID(game, data)` handle bound to the `players` table of the game
node at arena index `g`. -/
inductive AttrVal where
  | null : AttrVal
  | str : String → AttrVal
  | deferredP : Nat → String → AttrVal
deriving DecidableEq, Repr

/-- One parser node. `kind` is the `tagname` of the Python class. -/
structure PNode where
  kind : String
  ts : String
  attrs : List (String × AttrVal)
  children : List Nat
  parent : Option Nat := none
  indentLevel : Option Nat := none
  firstPlayer : Option String := none
  secondPlayer : Option String := none
  players : List (String × String) := []
  playernodes : List (String × Nat) := []
  gid : Option String := none
deriving DecidableEq, Repr

/-- Python dict read (`d.get(k)` / `d[k]`). -/
def dictGet {α : Type} : List (String × α) → String → Option α
  | [], _ => none
  | (k', v) :: t, k => if k' = k then some v else dictGet t k

/-- Python dict write (`d[k] = v`): update in place, else append;
insertion order preserved. -/
def dictSet {α : Type} : List (String × α) → String → α → List (String × α)
  | [], k, v => [(k, v)]
  | (k', v') :: t, k, v =>
    if k' = k then (k, v) :: t else (k', v') :: dictSet t k v

/-- The full parser state (`PowerLogParser` instance plus the object
graph). `Option` fields model Python attributes that may be unset or
`None`; reading them as `none` models the `AttributeError` /
`AssertionError` the source would raise. -/
structure PState where
  arena : List PNode := []
  ast : List Nat := []
  game : Option Nat := none
  currentNode : Option Nat := none
  entityDef : Option Nat := none
  currentChoiceNode : Option Nat := none
  currentSendChoiceNode : Option Nat := none
  currentOptionsNode : Option Nat := none
  currentOptionNode : Option Nat := none
  lastOptionNode : Option Nat := none
  stderrLines : List String := []
deriving DecidableEq, Repr

/-- The fresh parser: `PowerLogParser.__init__` (`self.ast = []`). -/
def initPState : PState := {}

/-- Placeholder node for total arena reads (never reached on the indices
the parser stores). -/
def dummyNode : PNode :=
  { kind := "", ts := "", attrs := [], children := [] }

/-- Read the node at arena index `i`. -/
def getN (st : PState) (i : Nat) : PNode := st.arena.getD i dummyNode

/-- Replace the node at arena index `i` by `f` of it. -/
def modN (st : PState) (i : Nat) (f : PNode → PNode) : PState :=
  { st with arena := st.arena.set i (f (getN st i)) }

/-- Allocate a node, returning its index (object creation). -/
def addNode (st : PState) (n : PNode) : PState × Nat :=
  ({ st with arena := st.arena ++ [n] }, st.arena.length)

/-- `parentIdx.nodes.append(childIdx)` (`Node.append`). -/
def appendChild (st : PState) (parentIdx childIdx : Nat) : PState :=
  modN st parentIdx (fun n => { n with children := n.children ++ [childIdx] })

/-- Append one line to the diagnostic channel (`sys.stderr.write`). -/
def pushWarn (st : PState) (w : String) : PState :=
  { st with stderrLines := st.stderrLines ++ [w] }

/-- Truthiness of an optional Python string (`None` and `""` falsy). -/
def optTruthy : Option String → Bool
  | none => false
  | some s => s ≠ ""

/-- Build a fresh node of a given kind with its constructor attributes
(`Node.__init__`): no children, no parent, no indent level. -/
def mkNode (kind ts : String) (attrs : List (String × AttrVal)) : PNode :=
  { kind := kind, ts := ts, attrs := attrs, children := [] }

/-- `PowerLogParser._parse_entity(data)`.  Pure: consults the state, never
changes it: it returns only a value, never a state. -/
def parse_entity (st : PState) (data : String) : Except String AttrVal :=
  if data = "" then .ok .null
  else
    match entityREMatch data with
    | some i => .ok (.str i)
    | none =>
      if data = "0" then .ok .null
      else if data = "GameEntity" then
        match st.game with
        | none => .error "AttributeError: game"
        | some g =>
          match (getN st g).gid with
          | none => .error "AttributeError: game.id"
          | some i => .ok (.str i)
      else if pyIsDigit data then .ok (.str data)
      else
        match st.game with
        | none => .error "AttributeError: game"
        | some g =>
          match dictGet (getN st g).players data with
          | some v => .ok (.str v)
          | none => .ok (.deferredP g data)

/-- `GameNode.register_player_id(entity, id)`: `players[entity] = id`,
then `playernodes[id].name = entity`. -/
def register_player_id (st : PState) (g : Nat) (entity i : String) :
    Except String PState :=
  let st1 := modN st g (fun n => { n with players := dictSet n.players entity i })
  match dictGet (getN st1 g).playernodes i with
  | none => .error "KeyError: playernodes"
  | some pidx =>
    .ok (modN st1 pidx (fun n => { n with attrs := dictSet n.attrs "name" (.str entity) }))

/-- `GameNode.update_current_player(entity, value)`. -/
def update_current_player (st : PState) (g : Nat) (entity value : String) :
    Except String PState :=
  if value = "0" && optTruthy (getN st g).firstPlayer then
    match (getN st g).firstPlayer with
    | none => .error "unreachable"
    | some f =>
      match register_player_id st g entity f with
      | .error e => .error e
      | .ok st1 =>
        match ((getN st1 g).playernodes.map Prod.fst).filter (fun p => p ≠ f) with
        | [] => .error "IndexError: list index out of range"
        | p :: _ => .ok (modN st1 g (fun n => { n with secondPlayer := some p }))
  else if value = "1" && optTruthy (getN st g).secondPlayer then
    match (getN st g).secondPlayer with
    | none => .error "unreachable"
    | some sp =>
      match register_player_id st g entity sp with
      | .error e => .error e
      | .ok st1 => .ok (modN st1 g (fun n => { n with secondPlayer := none }))
  else .ok st

/-- `PowerLogParser.create_game(ts)`: fresh `GameNode` with fresh
`players`/`playernodes` tables, current node reset to it, appended to
`ast`.  Note: nothing else of the parse context is touched. -/
def newGameNode (ts : String) : PNode :=
  { kind := "Game", ts := ts, attrs := [], children := [], indentLevel := some 0 }

def create_game (st : PState) (ts : String) : PState :=
  let r := addNode st (newGameNode ts)
  { r.1 with game := some r.2, currentNode := some r.2, ast := r.1.ast ++ [r.2] }

/-- The `CURRENT_PLAYER` seeding step of the `tag=… value=…` branch: on a
`CURRENT_PLAYER` attribute-set line the entity being defined must be a
Player node, and its id seeds `game.first_player`. -/
def actionTagSeed (st : PState) (tag : String) : Except String PState :=
  if tag = "CURRENT_PLAYER" then
    match st.entityDef with
    | none => .error "AssertionError: isinstance(entity_def, PlayerNode)"
    | some e =>
      if (getN st e).kind = "Player" then
        match st.game with
        | none => .error "AttributeError: game"
        | some g =>
          match dictGet (getN st e).attrs "id" with
          | some (.str i) => .ok (modN st g (fun n => { n with firstPlayer := some i }))
          | _ => .error "AttributeError: entity_def.id"
      else .error "AssertionError: isinstance(entity_def, PlayerNode)"
  else .ok st

/-- The `tag=… value=…` branch of `handle_data` (`ACTION_TAG_RE`): the
`CURRENT_PLAYER` seeding step, then the `Tag` node is appended to the
entity being defined, which must be open (`assert self.entity_def`). -/
def handleActionTag (st : PState) (ts tag value : String) : Except String PState :=
  match actionTagSeed st tag with
  | .error e => .error e
  | .ok st1 =>
    match st1.entityDef with
    | none => .error "AssertionError: entity_def"
    | some e =>
      let r := addNode st1 (mkNode "Tag" ts [("tag", .str tag), ("value", .str value)])
      .ok (appendChild r.1 e r.2)

/-- The identity-tracker side effects of the `TAG_CHANGE` branch: the
explicit-identifier rule (`ENTITY_ID` on a named entity) and the
turn-order rule (`CURRENT_PLAYER`). -/
def tagChangeTrack (st : PState) (entity tag value : String) : Except String PState :=
  if tag = "ENTITY_ID" then
    if !pyIsDigit entity && !startsWithCh entity '[' && entity ≠ "GameEntity" then
      match st.game with
      | none => .error "AttributeError: game"
      | some g => register_player_id st g entity value
    else .ok st
  else if tag = "CURRENT_PLAYER" then
    match st.game with
    | none => .error "AttributeError: game"
    | some g => update_current_player st g entity value
  else .ok st

/-- The `TAG_CHANGE` branch of `handle_data`: clears `entity_def` first,
feeds the identity tracker (`ENTITY_ID` / `CURRENT_PLAYER` tags), resolves
the entity, then appends — popping one level if the current node was
opened at a deeper indentation than this line. -/
def handleTagChange (st : PState) (ts : String) (indentLevel : Nat)
    (entity tag value : String) : Except String PState :=
  let st1 : PState := { st with entityDef := none }
  match tagChangeTrack st1 entity tag value with
  | .error e => .error e
  | .ok st2 =>
    match parse_entity st2 entity with
    | .error e => .error e
    | .ok ev =>
      let r := addNode st2
        (mkNode "TagChange" ts [("entity", ev), ("tag", .str tag), ("value", .str value)])
      match r.1.currentNode with
      | none => .error "AttributeError: current_node"
      | some cur =>
        match (getN r.1 cur).indentLevel with
        | none => .error "AttributeError: indent_level"
        | some il =>
          let target : Except String Nat :=
            if indentLevel < il then
              match (getN r.1 cur).parent with
              | none => .error "AttributeError: parent"
              | some p => .ok p
            else .ok cur
          match target with
          | .error e => .error e
          | .ok cur2 =>
            let st3 := appendChild r.1 cur2 r.2
            let st4 := modN st3 cur2 (fun n => { n with indentLevel := some indentLevel })
            .ok { st4 with currentNode := some cur2 }

/-- The `FULL_ENTITY` branch of `handle_data` (both line shapes): opens a
new entity-definition context. -/
def handleFullEntity (st : PState) (ts entity : String) (cardid : Option String) :
    Except String PState :=
  match parse_entity st entity with
  | .error e => .error e
  | .ok ev =>
    let cv : AttrVal := match cardid with
      | some c => .str c
      | none => .null
    let r := addNode st (mkNode "FullEntity" ts [("id", ev), ("cardID", cv)])
    match r.1.currentNode with
    | none => .error "AttributeError: current_node"
    | some cur => .ok { appendChild r.1 cur r.2 with entityDef := some r.2 }

/-- The `SHOW_ENTITY` branch of `handle_data`: opens a new
entity-definition context. -/
def handleShowEntity (st : PState) (ts entity cardid : String) :
    Except String PState :=
  match parse_entity st entity with
  | .error e => .error e
  | .ok ev =>
    let r := addNode st (mkNode "ShowEntity" ts [("entity", ev), ("cardID", .str cardid)])
    match r.1.currentNode with
    | none => .error "AttributeError: current_node"
    | some cur => .ok { appendChild r.1 cur r.2 with entityDef := some r.2 }

/-- The `HIDE_ENTITY` branch of `handle_data`. -/
def handleHideEntity (st : PState) (ts entity tag value : String) :
    Except String PState :=
  match parse_entity st entity with
  | .error e => .error e
  | .ok ev =>
    let r := addNode st
      (mkNode "HideEntity" ts [("entity", ev), ("tag", .str tag), ("value", .str value)])
    match r.1.currentNode with
    | none => .error "AttributeError: current_node"
    | some cur => .ok (appendChild r.1 cur r.2)

/-- The `ACTION_START` branch of `handle_data`: pushes a new `Action`
block as the current node, recording its indentation depth. -/
def handleActionStart (st : PState) (ts : String) (indentLevel : Nat)
    (entity ty ix target : String) : Except String PState :=
  match parse_entity st entity with
  | .error e => .error e
  | .ok ev =>
    match parse_entity st target with
    | .error e => .error e
    | .ok tv =>
      let r := addNode st
        (mkNode "Action" ts
          [("entity", ev), ("type", .str ty), ("index", .str ix), ("target", tv)])
      match r.1.currentNode with
      | none => .error "AttributeError: current_node"
      | some cur =>
        let st1 := appendChild r.1 cur r.2
        let st2 := modN st1 r.2
          (fun n => { n with parent := some cur, indentLevel := some indentLevel })
        .ok { st2 with currentNode := some r.2 }

/-- The `META_DATA` branch of `handle_data`. -/
def handleMetaData (st : PState) (ts meta dataGrp info : String) :
    Except String PState :=
  match parse_entity st dataGrp with
  | .error e => .error e
  | .ok dv =>
    let r := addNode st
      (mkNode "MetaData" ts [("meta", .str meta), ("data", dv), ("info", .str info)])
    match r.1.currentNode with
    | none => .error "AttributeError: current_node"
    | some cur => .ok (appendChild r.1 cur r.2)

/-- The `GameEntity EntityID=…` branch of `handle_data`: asserts the id is
`"1"`, records it as the match root id, opens the entity-definition
context on the new `GameEntity` node. -/
def handleGameEntity (st : PState) (ts i : String) : Except String PState :=
  if i = "1" then
    match st.game with
    | none => .error "AttributeError: game"
    | some g =>
      let st1 := modN st g (fun n => { n with gid := some i })
      match st1.currentNode with
      | none => .error "AttributeError: current_node"
      | some cur =>
        let r := addNode st1 (mkNode "GameEntity" ts [("id", .str i)])
        .ok { appendChild r.1 cur r.2 with entityDef := some r.2 }
  else .error "AssertionError: id == 1"

/-- The `Player EntityID=…` branch of `handle_data`: creates a Player
node, opens the entity-definition context on it and registers it in
`game.playernodes` under its entity id. -/
def handlePlayer (st : PState) (ts i p hi lo : String) : Except String PState :=
  let r := addNode st
    (mkNode "Player" ts
      [("id", .str i), ("playerID", .str p), ("accountHi", .str hi),
       ("accountLo", .str lo), ("name", .null)])
  let st1 : PState := { r.1 with entityDef := some r.2 }
  match st1.currentNode with
  | none => .error "AttributeError: current_node"
  | some cur =>
    let st2 := appendChild st1 cur r.2
    match st2.game with
    | none => .error "AttributeError: game"
    | some g =>
      .ok (modN st2 g (fun n => { n with playernodes := dictSet n.playernodes i r.2 }))

/-- The `ACTION_END` branch of `handle_data`: pop to the parent, tolerated
as a no-op when the current node has no parent. -/
def handleActionEnd (st : PState) : Except String PState :=
  match st.currentNode with
  | none => .error "AttributeError: current_node"
  | some cur =>
    match (getN st cur).parent with
    | none => .ok st
    | some p => .ok { st with currentNode := some p }

/-- `PowerLogParser.handle_data(ts, data)`: strip the indentation, then
try the grammar rules in source order; unmatched payloads produce a
warning only. -/
def handle_data (st : PState) (ts dataRaw : String) : Except String PState :=
  let data := pylstrip dataRaw
  let indentLevel := dataRaw.length - data.length
  match actionTagMatch data with
  | some (tag, value) => handleActionTag st ts tag value
  | none =>
  match tagChangeMatch data with
  | some (e, t, v) => handleTagChange st ts indentLevel e t v
  | none =>
  match (match fullEntity1Match data with
         | some r => some r
         | none => fullEntity2Match data) with
  | some (e, c) => handleFullEntity st ts e c
  | none =>
  match showEntityMatch data with
  | some (e, c) => handleShowEntity st ts e c
  | none =>
  match hideEntityMatch data with
  | some (e, t, v) => handleHideEntity st ts e t v
  | none =>
  match actionStartMatch data with
  | some (e, ty, ix, tg) => handleActionStart st ts indentLevel e ty ix tg
  | none =>
  match metaDataMatch data with
  | some (m, d, i) => handleMetaData st ts m d i
  | none =>
  match createGameMatch data with
  | some i => handleGameEntity st ts i
  | none =>
  match playerMatch data with
  | some (i, p, hi, lo) => handlePlayer st ts i p hi lo
  | none =>
  if data = "CREATE_GAME" then .ok (create_game st ts)
  else if data = "ACTION_END" then handleActionEnd st
  else .ok (pushWarn st ("Warning: Unhandled data: " ++ pyRepr data ++ "\n"))

/-- `PowerLogParser.handle_send_choices(ts, data)`. -/
def handle_send_choices (st : PState) (ts dataRaw : String) : Except String PState :=
  let data := pylstrip dataRaw
  match sendChoicesTypeMatch data with
  | some (i, ty) =>
    match st.currentNode with
    | none => .error "AttributeError: current_node"
    | some cur =>
      let r := addNode st (mkNode "SendChoices" ts [("entity", .str i), ("type", .str ty)])
      .ok { appendChild r.1 cur r.2 with currentSendChoiceNode := some r.2 }
  | none =>
  match sendChoicesEntitiesMatch data with
  | some (ix, ent) =>
    match parse_entity st ent with
    | .error e => .error e
    | .ok ev =>
      match st.currentSendChoiceNode with
      | none => .error "AttributeError: current_send_choice_node"
      | some ch =>
        let r := addNode st (mkNode "Choice" ts [("index", .str ix), ("entity", ev)])
        .ok (appendChild r.1 ch r.2)
  | none => .ok (pushWarn st ("Warning: Unhandled sent choices: " ++ pyRepr data ++ "\n"))

/-- `PowerLogParser.handle_choices(ts, data)`.  Note: the source emits no
warning when no rule matches. -/
def handle_choices (st : PState) (ts dataRaw : String) : Except String PState :=
  let data := pylstrip dataRaw
  match choicesChoiceMatch data with
  | some (e, p, ty, mn, mx) =>
    match st.currentNode with
    | none => .error "AttributeError: current_node"
    | some cur =>
      let r := addNode st
        (mkNode "Choices" ts
          [("entity", .str e), ("playerID", .str p), ("type", .str ty),
           ("min", .str mn), ("max", .str mx), ("source", .null)])
      .ok { appendChild r.1 cur r.2 with currentChoiceNode := some r.2 }
  | none =>
  match choicesSourceMatch data with
  | some src =>
    match parse_entity st src with
    | .error e => .error e
    | .ok ev =>
      match st.currentChoiceNode with
      | none => .error "AttributeError: current_choice_node"
      | some ch => .ok (modN st ch (fun n => { n with attrs := dictSet n.attrs "source" ev }))
  | none =>
  match choicesEntitiesMatch data with
  | some (ix, ent) =>
    match parse_entity st ent with
    | .error e => .error e
    | .ok ev =>
      match st.currentChoiceNode with
      | none => .error "AttributeError: current_choice_node"
      | some ch =>
        let r := addNode st (mkNode "Choice" ts [("index", .str ix), ("entity", ev)])
        .ok (appendChild r.1 ch r.2)
  | none => .ok st

/-- `PowerLogParser.handle_options(ts, data)`. -/
def handle_options (st : PState) (ts dataRaw : String) : Except String PState :=
  let data := pylstrip dataRaw
  match optionsEntityMatch data with
  | some i =>
    match st.currentNode with
    | none => .error "AttributeError: current_node"
    | some cur =>
      let r := addNode st (mkNode "Options" ts [("id", .str i)])
      .ok { appendChild r.1 cur r.2 with currentOptionsNode := some r.2 }
  | none =>
  match optionsOptionMatch data with
  | some (ix, ty, ent) =>
    match parse_entity st ent with
    | .error e => .error e
    | .ok ev =>
      match st.currentOptionsNode with
      | none => .error "AttributeError: current_options_node"
      | some op =>
        let r := addNode st
          (mkNode "Option" ts [("index", .str ix), ("type", .str ty), ("entity", ev)])
        .ok { appendChild r.1 op r.2 with
                currentOptionNode := some r.2, lastOptionNode := some r.2 }
  | none =>
  match optionsSubOptionMatch data with
  | some (k, ix, ent) =>
    match parse_entity st ent with
    | .error e => .error e
    | .ok ev =>
      if k = "subOption" then
        match st.currentOptionNode with
        | none => .error "AttributeError: current_option_node"
        | some op =>
          let r := addNode st (mkNode "SubOption" ts [("index", .str ix), ("entity", ev)])
          .ok { appendChild r.1 op r.2 with lastOptionNode := some r.2 }
      else
        match st.lastOptionNode with
        | none => .error "AttributeError: last_option_node"
        | some op =>
          let r := addNode st (mkNode "Target" ts [("index", .str ix), ("entity", ev)])
          .ok (appendChild r.1 op r.2)
  | none => .ok (pushWarn st ("Warning: Unimplemented options: " ++ pyRepr data ++ "\n"))

/-- `PowerLogParser.handle_send_option(ts, data)`.  Note: the source emits
no warning when the rule does not match. -/
def handle_send_option (st : PState) (ts dataRaw : String) : Except String PState :=
  let data := pylstrip dataRaw
  match sendOptionMatch data with
  | some (o, so, tg, ps) =>
    match st.currentNode with
    | none => .error "AttributeError: current_node"
    | some cur =>
      let r := addNode st
        (mkNode "SendOption" ts
          [("option", .str o), ("subOption", .str so), ("target", .str tg),
           ("position", .str ps)])
      .ok (appendChild r.1 cur r.2)
  | none => .ok st

/-- `PowerLogParser.add_data(ts, method, data)`: dispatch by method name;
unknown methods are ignored. -/
def add_data (st : PState) (ts method data : String) : Except String PState :=
  if method = "GameState.DebugPrintPower" then handle_data st ts data
  else if method = "GameState.SendChoices" then handle_send_choices st ts data
  else if method = "GameState.DebugPrintChoices" then handle_choices st ts data
  else if method = "GameState.DebugPrintOptions" then handle_options st ts data
  else if method = "GameState.SendOption" then handle_send_option st ts data
  else .ok st

/-- Feed a sequence of classified lines `(ts, method, data)` to the
parser, stopping at the first uncaught exception. -/
def processLines (st : PState) : List (String × String × String) → Except String PState
  | [] => .ok st
  | (ts, m, d) :: rest =>
    match add_data st ts m d with
    | .error e => .error e
    | .ok st1 => processLines st1 rest

/-- Extract the final state of a successful run (used to name concrete
states in witnesses). -/
def exOk (e : Except String PState) : PState :=
  match e with
  | .ok st => st
  | .error _ => initPState

/-!  Serializer model (`Node.xml` plus the lazy `PlayerID.__str__`
resolution that `%`-formatting performs at render time).  -/

/-- The per-kind `attributes` tuples of the source classes.  None of them
contains `"ts"`. -/
def attrOrder : String → List String
  | "Game" => []
  | "GameEntity" => ["id"]
  | "Player" => ["id", "playerID", "accountHi", "accountLo", "name"]
  | "FullEntity" => ["id", "cardID"]
  | "ShowEntity" => ["entity", "cardID"]
  | "Action" => ["entity", "type", "index", "target"]
  | "MetaData" => ["meta", "data", "info"]
  | "Tag" => ["tag", "value"]
  | "TagChange" => ["entity", "tag", "value"]
  | "HideEntity" => ["entity", "tag", "value"]
  | "Choices" => ["entity", "playerID", "type", "min", "max", "source"]
  | "Choice" => ["index", "entity"]
  | "SendChoices" => ["entity", "type"]
  | "Options" => ["id"]
  | "Option" => ["index", "type", "entity"]
  | "SubOption" => ["index", "entity"]
  | "Target" => ["index", "entity"]
  | "SendOption" => ["option", "subOption", "target", "position"]
  | _ => []

/-- The per-kind `timestamp` class flags of the source. -/
def timestampFlag : String → Bool
  | "Action" => true
  | "HideEntity" => true
  | "Choices" => true
  | "SendChoices" => true
  | "Options" => true
  | _ => false

/-- One rendered markup element. -/
structure XmlElem where
  tag : String
  attribs : List (String × String)
  children : List XmlElem
deriving Repr

/-- `PlayerID.__str__` applied at render time: `players.get(data,
"UNKNOWN PLAYER: %r" % data)` against the table of the owning game as it
stands after parsing; plain strings render as themselves. -/
def renderAttrVal (arena : List PNode) : AttrVal → String
  | .null => ""
  | .str s => s
  | .deferredP g name =>
    match dictGet (arena.getD g dummyNode).players name with
    | some v => v
    | none => "UNKNOWN PLAYER: " ++ pyRepr name

/-- Python truthiness of an attribute value: `None` and `""` are falsy; a
`PlayerID` instance is always truthy. -/
def attrTruthy : AttrVal → Bool
  | .null => false
  | .str s => s ≠ ""
  | .deferredP _ _ => true

/-- `Node.xml()`: children first, then one attribute per truthy value in
the `attributes` order of the kind.  The guard `if attr == "ts" and not
self.timestamp: continue` guard is reproduced faithfully; note that
`"ts"` never occurs in an `attributes` tuple. -/
def nodeXml (arena : List PNode) : Nat → Nat → XmlElem
  | 0, _ => { tag := "", attribs := [], children := [] }
  | fuel + 1, i =>
    let n := arena.getD i dummyNode
    { tag := n.kind,
      children := n.children.map (nodeXml arena fuel),
      attribs := (attrOrder n.kind).filterMap (fun a =>
        if a = "ts" && !timestampFlag n.kind then none
        else
          match dictGet n.attrs a with
          | some v => if attrTruthy v then some (a, renderAttrVal arena v) else none
          | none => none) }

/-- Tree shape and parse context agreement between two states (everything
except the identity tables, the player-name attributes and the
first/second-player slots). -/
def treeShapeEq (a b : PState) : Prop :=
  a.arena.length = b.arena.length ∧ a.ast = b.ast ∧ a.game = b.game ∧
  a.currentNode = b.currentNode ∧ a.entityDef = b.entityDef ∧
  a.stderrLines = b.stderrLines ∧
  ∀ i, (getN a i).kind = (getN b i).kind ∧
       (getN a i).children = (getN b i).children ∧
       (getN a i).parent = (getN b i).parent ∧
       (getN a i).indentLevel = (getN b i).indentLevel ∧
       (getN a i).gid = (getN b i).gid

/-- One classified line is the match-start marker dispatched to the main
handler. -/
def isCreateGameLine (l : String × String × String) : Bool :=
  l.2.1 = "GameState.DebugPrintPower" && pylstrip l.2.2 = "CREATE_GAME"

/-- Parse-state agreement: every component except the diagnostic channel. -/
def coreEq (a b : PState) : Prop :=
  a.arena = b.arena ∧ a.ast = b.ast ∧ a.game = b.game ∧
  a.currentNode = b.currentNode ∧ a.entityDef = b.entityDef ∧
  a.currentChoiceNode = b.currentChoiceNode ∧
  a.currentSendChoiceNode = b.currentSendChoiceNode ∧
  a.currentOptionsNode = b.currentOptionsNode ∧
  a.currentOptionNode = b.currentOptionNode ∧
  a.lastOptionNode = b.lastOptionNode

/-! Concrete scenarios (closed inputs used by counterexamples and
witnesses). -/

/-- The method name of the main event grammar. -/
def mDPP : String := "GameState.DebugPrintPower"

/-- A match with two player nodes (ids `2` and `3`) where the tentative
first-player slot holds `2` (seeded by the `CURRENT_PLAYER` tag inside
the definition block of player 2). -/
def c1lines : List (String × String × String) := [
  ("t1", mDPP, "CREATE_GAME"),
  ("t2", mDPP, "GameEntity EntityID=1"),
  ("t3", mDPP, "Player EntityID=2 PlayerID=1 GameAccountId=[hi=1 lo=2]"),
  ("t4", mDPP, "tag=CURRENT_PLAYER value=1"),
  ("t5", mDPP, "Player EntityID=3 PlayerID=2 GameAccountId=[hi=1 lo=3]")]

def c1before : PState := exOk (processLines initPState c1lines)

def c1after : PState :=
  exOk (handle_data c1before "t6" "TAG_CHANGE Entity=Bob tag=CURRENT_PLAYER value=0")

/-- A match with a block opened at depth 1 and a nested block opened at
depth 2 (no block-end lines). -/
def c2lines : List (String × String × String) := [
  ("t1", mDPP, "CREATE_GAME"),
  ("t2", mDPP, "GameEntity EntityID=1"),
  ("t3", mDPP, " ACTION_START Entity=1 BlockType=ATTACK Index=0 Target=0"),
  ("t4", mDPP, "  ACTION_START Entity=1 BlockType=POWER Index=0 Target=0")]

def c2before : PState := exOk (processLines initPState c2lines)

/-- An attribute-change line at depth 1, arriving while the depth-2 block
is still open. -/
def c2line : String := " TAG_CHANGE Entity=1 tag=ZONE value=PLAY"

def c2after : PState := exOk (handle_data c2before "t5" c2line)

/-- Two match-start markers back to back: the second match begins while
the `GameEntity` definition context of the first match is still open. -/
def c8lines : List (String × String × String) := [
  ("t1", mDPP, "CREATE_GAME"),
  ("t2", mDPP, "GameEntity EntityID=1"),
  ("t3", mDPP, "CREATE_GAME")]

def c8mid : PState := exOk (processLines initPState c8lines)

def c8after : PState := exOk (handle_data c8mid "t4" "tag=FOO value=1")

/-- One timestamp-bearing `Action` node with a captured non-empty
timestamp. -/
def c9arena : List PNode := [
  { kind := "Action", ts := "01:23:45.678",
    attrs := [("entity", .str "1"), ("type", .str "ATTACK"),
              ("index", .str "0"), ("target", .null)],
    children := [] }]

def c10lines : List (String × String × String) := [
  ("t1", mDPP, "CREATE_GAME"),
  ("t2", mDPP, "GameEntity EntityID=1")]

def c10a : PState := exOk (processLines initPState c10lines)

def c10b : PState := exOk (handle_data c10a "t3" "TAG_CHANGE Entity=1 tag=A value=1")

def c10c : PState := exOk (handle_data c10b "t5" "FULL_ENTITY - Creating ID=4 CardID=EX1")

/-- A match in which the name `Alice` is referenced (creating a deferred
player reference) before the explicit-identifier signal `Alice → 7`
arrives. -/
def c4lines : List (String × String × String) := [
  ("t1", mDPP, "CREATE_GAME"),
  ("t2", mDPP, "GameEntity EntityID=1"),
  ("t3", mDPP, "Player EntityID=7 PlayerID=1 GameAccountId=[hi=1 lo=2]"),
  ("t4", mDPP, "TAG_CHANGE Entity=Alice tag=FOO value=1"),
  ("t5", mDPP, "TAG_CHANGE Entity=Alice tag=ENTITY_ID value=7")]

def c4state : PState := exOk (processLines initPState c4lines)

/-- The same match without the identifier signal: `Alice` is never
resolved. -/
def c4nosig : PState := exOk (processLines initPState (c4lines.take 4))

/-- Two complete match-start sequences back to back. -/
def c5lines : List (String × String × String) := [
  ("t1", mDPP, "CREATE_GAME"),
  ("t2", mDPP, "GameEntity EntityID=1"),
  ("t3", mDPP, "CREATE_GAME"),
  ("t4", mDPP, "GameEntity EntityID=1")]

def c5state : PState := exOk (processLines initPState c5lines)

def c5g1 : PState := exOk (processLines initPState [("t1", mDPP, "CREATE_GAME")])

/-! Basic facts about the state primitives. -/

theorem getN_of_length_le (st : PState) (i : Nat) (h : st.arena.length ≤ i) :
    getN st i = dummyNode := by
  simp [getN, List.getD_eq_getElem?_getD, List.getElem?_eq_none h]

theorem getN_modN (st : PState) (j : Nat) (f : PNode → PNode) (i : Nat) :
    getN (modN st j f) i =
      if i = j ∧ j < st.arena.length then f (getN st j) else getN st i := by
  rcases Nat.lt_or_ge j st.arena.length with hlt | hge
  · by_cases hij : i = j
    · subst hij
      simp [getN, modN, List.getD_eq_getElem?_getD, List.getElem?_set_eq_of_lt _ hlt, hlt]
    · simp [getN, modN, List.getD_eq_getElem?_getD, List.getElem?_set_ne (Ne.symm hij), hij]
  · simp [modN, List.set_eq_of_length_le hge, getN, Nat.not_lt.2 hge]

@[simp] theorem modN_arena_length (st : PState) (j : Nat) (f : PNode → PNode) :
    (modN st j f).arena.length = st.arena.length := by
  simp [modN]

@[simp] theorem modN_ast (st : PState) (j : Nat) (f : PNode → PNode) :
    (modN st j f).ast = st.ast := rfl

@[simp] theorem modN_game (st : PState) (j : Nat) (f : PNode → PNode) :
    (modN st j f).game = st.game := rfl

@[simp] theorem modN_currentNode (st : PState) (j : Nat) (f : PNode → PNode) :
    (modN st j f).currentNode = st.currentNode := rfl

@[simp] theorem modN_entityDef (st : PState) (j : Nat) (f : PNode → PNode) :
    (modN st j f).entityDef = st.entityDef := rfl

@[simp] theorem modN_stderr (st : PState) (j : Nat) (f : PNode → PNode) :
    (modN st j f).stderrLines = st.stderrLines := rfl

theorem getN_addNode (st : PState) (n : PNode) (i : Nat) :
    getN (addNode st n).1 i = if i = st.arena.length then n else getN st i := by
  rcases Nat.lt_trichotomy i st.arena.length with hlt | heq | hgt
  · simp [addNode, getN, List.getD_eq_getElem?_getD, List.getElem?_append, hlt,
      Nat.ne_of_lt hlt]
  · subst heq
    simp [addNode, getN, List.getD_eq_getElem?_getD, List.getElem?_append]
  · have h1 : st.arena.length ≤ i := Nat.le_of_lt hgt
    have h2 : (addNode st n).1.arena.length ≤ i := by
      simp [addNode]; omega
    rw [getN_of_length_le _ _ h2, getN_of_length_le _ _ h1,
      if_neg (by omega)]

@[simp] theorem addNode_arena_length (st : PState) (n : PNode) :
    (addNode st n).1.arena.length = st.arena.length + 1 := by
  simp [addNode]

@[simp] theorem addNode_idx (st : PState) (n : PNode) :
    (addNode st n).2 = st.arena.length := rfl

@[simp] theorem addNode_ast (st : PState) (n : PNode) :
    (addNode st n).1.ast = st.ast := rfl

@[simp] theorem addNode_game (st : PState) (n : PNode) :
    (addNode st n).1.game = st.game := rfl

@[simp] theorem addNode_currentNode (st : PState) (n : PNode) :
    (addNode st n).1.currentNode = st.currentNode := rfl

@[simp] theorem addNode_entityDef (st : PState) (n : PNode) :
    (addNode st n).1.entityDef = st.entityDef := rfl

@[simp] theorem addNode_stderr (st : PState) (n : PNode) :
    (addNode st n).1.stderrLines = st.stderrLines := rfl

theorem dictGet_dictSet_self {α : Type} (l : List (String × α)) (k : String) (v : α) :
    dictGet (dictSet l k v) k = some v := by
  induction l with
  | nil => simp [dictGet, dictSet]
  | cons h t ih =>
    obtain ⟨k', v'⟩ := h
    by_cases hk : k' = k
    · simp [dictGet, dictSet, hk]
    · simp [dictGet, dictSet, hk, ih]

theorem dictGet_dictSet_ne {α : Type} (l : List (String × α)) (k k' : String) (v : α)
    (h : k' ≠ k) : dictGet (dictSet l k v) k' = dictGet l k' := by
  have hne : ¬k = k' := fun e => h e.symm
  induction l with
  | nil => simp [dictGet, dictSet, hne]
  | cons hd t ih =>
    obtain ⟨k0, v0⟩ := hd
    by_cases hk : k0 = k
    · subst hk
      simp [dictGet, dictSet, hne]
    · simp only [dictSet, if_neg hk, dictGet]
      by_cases hk' : k0 = k'
      · simp [hk']
      · simp [hk', ih]

/-! Head characters of the grammar-rule matchers (for rule
exclusivity). -/

theorem dropLit_head {p : Char} {ps l r : List Char}
    (h : dropLit (p :: ps) l = some r) : ∃ t, l = p :: t := by
  cases l with
  | nil => simp [dropLit] at h
  | cons c cs =>
    by_cases hpc : p = c
    · exact ⟨cs, by rw [hpc]⟩
    · simp [dropLit, hpc] at h

theorem tagChangeMatch_head {s : String} {x : String × String × String}
    (h : tagChangeMatch s = some x) : ∃ t, s.toList = 'T' :: t := by
  unfold tagChangeMatch at h
  rcases hd : dropLit "TAG_CHANGE Entity=".toList s.toList with _ | r <;>
    rw [hd] at h
  · exact absurd h (by simp)
  · exact dropLit_head hd

theorem actionTagMatch_head {s : String} {x : String × String}
    (h : actionTagMatch s = some x) : ∃ t, s.toList = 't' :: t := by
  unfold actionTagMatch at h
  rcases hd : dropLit "tag=".toList s.toList with _ | r <;> rw [hd] at h
  · exact absurd h (by simp)
  · exact dropLit_head hd

/-- A payload matching `ACTION_TAGCHANGE_RE` never matches `ACTION_TAG_RE`
(their prefixes differ in the first character). -/
theorem actionTag_none_of_tagChange {s : String} {x : String × String × String}
    (h : tagChangeMatch s = some x) : actionTagMatch s = none := by
  obtain ⟨t, ht⟩ := tagChangeMatch_head h
  cases ha : actionTagMatch s with
  | none => rfl
  | some y =>
    obtain ⟨u, hu⟩ := actionTagMatch_head ha
    rw [ht] at hu
    injection hu with h1 _
    exact absurd h1 (by decide)

/-! Frame lemmas: the identity tracker never changes the tree shape or
the parse context. -/

theorem treeShapeEq_refl (a : PState) : treeShapeEq a a :=
  ⟨rfl, rfl, rfl, rfl, rfl, rfl, fun _ => ⟨rfl, rfl, rfl, rfl, rfl⟩⟩

theorem treeShapeEq_trans {a b c : PState} (h1 : treeShapeEq a b)
    (h2 : treeShapeEq b c) : treeShapeEq a c := by
  obtain ⟨l1, a1, g1, c1, e1, s1, n1⟩ := h1
  obtain ⟨l2, a2, g2, c2, e2, s2, n2⟩ := h2
  refine ⟨l1.trans l2, a1.trans a2, g1.trans g2, c1.trans c2, e1.trans e2,
    s1.trans s2, fun i => ?_⟩
  obtain ⟨k1, ch1, p1, i1, d1⟩ := n1 i
  obtain ⟨k2, ch2, p2, i2, d2⟩ := n2 i
  exact ⟨k1.trans k2, ch1.trans ch2, p1.trans p2, i1.trans i2, d1.trans d2⟩

theorem treeShapeEq_modN (st : PState) (j : Nat) (f : PNode → PNode)
    (hf : ∀ n, (f n).kind = n.kind ∧ (f n).children = n.children ∧
      (f n).parent = n.parent ∧ (f n).indentLevel = n.indentLevel ∧
      (f n).gid = n.gid) :
    treeShapeEq (modN st j f) st := by
  refine ⟨by simp, rfl, rfl, rfl, rfl, rfl, fun i => ?_⟩
  rw [getN_modN]
  split
  · next hc =>
    obtain ⟨hij, _⟩ := hc
    subst hij
    exact hf (getN st i)
  · exact ⟨rfl, rfl, rfl, rfl, rfl⟩

theorem register_player_id_shape {st : PState} {g : Nat} {e i : String}
    {st' : PState} (h : register_player_id st g e i = .ok st') :
    treeShapeEq st' st := by
  simp only [register_player_id] at h
  split at h
  · simp at h
  · injection h with h'
    subst h'
    exact treeShapeEq_trans
      (treeShapeEq_modN _ _ _ (fun n => ⟨rfl, rfl, rfl, rfl, rfl⟩))
      (treeShapeEq_modN _ _ _ (fun n => ⟨rfl, rfl, rfl, rfl, rfl⟩))

theorem update_current_player_shape {st : PState} {g : Nat} {e v : String}
    {st' : PState} (h : update_current_player st g e v = .ok st') :
    treeShapeEq st' st := by
  simp only [update_current_player] at h
  split at h
  · split at h
    · simp at h
    · split at h
      · simp at h
      · next st1 hr =>
        split at h
        · simp at h
        · injection h with h'
          subst h'
          exact treeShapeEq_trans
            (treeShapeEq_modN _ _ _ (fun n => ⟨rfl, rfl, rfl, rfl, rfl⟩))
            (register_player_id_shape hr)
  · split at h
    · split at h
      · simp at h
      · split at h
        · simp at h
        · next st1 hr =>
          injection h with h'
          subst h'
          exact treeShapeEq_trans
            (treeShapeEq_modN _ _ _ (fun n => ⟨rfl, rfl, rfl, rfl, rfl⟩))
            (register_player_id_shape hr)
    · injection h with h'
      subst h'
      exact treeShapeEq_refl st

theorem tagChangeTrack_shape {st : PState} {e t v : String} {st' : PState}
    (h : tagChangeTrack st e t v = .ok st') : treeShapeEq st' st := by
  simp only [tagChangeTrack] at h
  split at h
  · split at h
    · split at h
      · simp at h
      · exact register_player_id_shape h
    · injection h with h'
      subst h'
      exact treeShapeEq_refl st
  · split at h
    · split at h
      · simp at h
      · exact update_current_player_shape h
    · injection h with h'
      subst h'
      exact treeShapeEq_refl st

theorem getN_currentNode_irrel (st : PState) (x : Option Nat) (i : Nat) :
    getN { st with currentNode := x } i = getN st i := rfl

theorem handleTagChange_pop {st : PState} {ts : String} {ind : Nat}
    {ent tg vl : String} {st' : PState} {c d p : Nat}
    (hcur : st.currentNode = some c)
    (hil : (getN st c).indentLevel = some d)
    (hpar : (getN st c).parent = some p)
    (hp : p < st.arena.length)
    (hind : ind < d)
    (h : handleTagChange st ts ind ent tg vl = .ok st') :
    st'.currentNode = some p ∧
    (getN st' p).children = (getN st p).children ++ [st.arena.length] ∧
    (getN st' st.arena.length).kind = "TagChange" ∧
    (getN st' p).indentLevel = some ind := by
  have hc : c < st.arena.length := by
    by_contra hcge
    rw [getN_of_length_le st c (Nat.le_of_not_lt hcge)] at hil
    simp [dummyNode] at hil
  simp only [handleTagChange] at h
  split at h
  · simp at h
  · next st2 htr =>
    obtain ⟨hlen0, _, _, hcn0, _, _, hnodes⟩ := tagChangeTrack_shape htr
    have hlen' : st2.arena.length = st.arena.length := hlen0
    have hcn' : st2.currentNode = some c := by
      rw [hcn0]; exact hcur
    have hch : ∀ i, (getN st2 i).children = (getN st i).children := fun i => (hnodes i).2.1
    have hpr : ∀ i, (getN st2 i).parent = (getN st i).parent := fun i => (hnodes i).2.2.1
    have hid : ∀ i, (getN st2 i).indentLevel = (getN st i).indentLevel :=
      fun i => (hnodes i).2.2.2.1
    split at h
    · simp at h
    · next ev hpe =>
      split at h
      · simp at h
      · next cur hcur2 =>
        rw [addNode_currentNode, hcn'] at hcur2
        injection hcur2 with hcurc
        subst hcurc
        split at h
        · simp at h
        · next il hil2 =>
          rw [getN_addNode, if_neg (show ¬ c = st2.arena.length by omega)] at hil2
          rw [hid c, hil] at hil2
          injection hil2 with hild
          subst hild
          split at h
          · simp at h
          · next cur2 htgt =>
            rw [if_pos hind] at htgt
            rw [getN_addNode, if_neg (show ¬ c = st2.arena.length by omega)] at htgt
            rw [hpr c, hpar] at htgt
            injection htgt with hcur2p
            subst hcur2p
            injection h with h'
            subst h'
            refine ⟨rfl, ?_, ?_, ?_⟩
            · rw [getN_currentNode_irrel, getN_modN,
                if_pos ⟨rfl, show p < _ by simp [appendChild]; omega⟩]
              simp only [appendChild]
              rw [getN_modN, if_pos ⟨rfl, show p < _ by simp; omega⟩]
              rw [getN_addNode, if_neg (show ¬ p = st2.arena.length by omega)]
              simp [hch p, hlen']
            · rw [getN_currentNode_irrel, getN_modN,
                if_neg (show ¬ (st.arena.length = p ∧ _) by rintro ⟨e, _⟩; omega)]
              simp only [appendChild]
              rw [getN_modN, if_neg (show ¬ (st.arena.length = p ∧ _) by rintro ⟨e, _⟩; omega)]
              rw [getN_addNode, if_pos (by omega)]
              rfl
            · rw [getN_currentNode_irrel, getN_modN,
                if_pos ⟨rfl, show p < _ by simp [appendChild]; omega⟩]

theorem actionTagSeed_ast {st : PState} {t : String} {st1 : PState}
    (h : actionTagSeed st t = .ok st1) : st1.ast = st.ast := by
  simp only [actionTagSeed] at h
  repeat' split at h
  all_goals first
    | (injection h with h'; subst h'; simp)
    | injection h

theorem actionTagSeed_entityDef {st : PState} {t : String} {st1 : PState}
    (h : actionTagSeed st t = .ok st1) : st1.entityDef = st.entityDef := by
  simp only [actionTagSeed] at h
  repeat' split at h
  all_goals first
    | (injection h with h'; subst h'; simp)
    | injection h

theorem handleActionTag_ast {st : PState} {ts tg v : String} {st' : PState}
    (h : handleActionTag st ts tg v = .ok st') : st'.ast = st.ast := by
  simp only [handleActionTag] at h
  split at h
  · injection h
  · next st1 hs1 =>
    split at h
    · injection h
    · injection h with h'
      subst h'
      simp [appendChild, actionTagSeed_ast hs1]

theorem handleActionTag_entityDef {st : PState} {ts tg v : String} {st' : PState}
    (h : handleActionTag st ts tg v = .ok st') : st'.entityDef = st.entityDef := by
  simp only [handleActionTag] at h
  split at h
  · injection h
  · next st1 hs1 =>
    split at h
    · injection h
    · injection h with h'
      subst h'
      simp [appendChild, actionTagSeed_entityDef hs1]

theorem handleTagChange_ast {st : PState} {ts : String} {ind : Nat}
    {e t v : String} {st' : PState}
    (h : handleTagChange st ts ind e t v = .ok st') : st'.ast = st.ast := by
  simp only [handleTagChange] at h
  split at h
  · injection h
  · next st2 htr =>
    have hast : st2.ast = st.ast := (tagChangeTrack_shape htr).2.1.trans rfl
    repeat' split at h
    all_goals first
      | (injection h with h'; subst h'; simp [appendChild, hast])
      | injection h

theorem handleTagChange_entityDef {st : PState} {ts : String} {ind : Nat}
    {e t v : String} {st' : PState}
    (h : handleTagChange st ts ind e t v = .ok st') : st'.entityDef = none := by
  simp only [handleTagChange] at h
  split at h
  · injection h
  · next st2 htr =>
    have hed : st2.entityDef = none := (tagChangeTrack_shape htr).2.2.2.2.1.trans rfl
    repeat' split at h
    all_goals first
      | (injection h with h'; subst h'; simp [appendChild, hed])
      | injection h

theorem handleFullEntity_ast {st : PState} {ts e : String} {c : Option String}
    {st' : PState} (h : handleFullEntity st ts e c = .ok st') : st'.ast = st.ast := by
  simp only [handleFullEntity] at h
  repeat' split at h
  all_goals first
    | (injection h with h'; subst h'; simp [appendChild])
    | injection h

theorem handleShowEntity_ast {st : PState} {ts e c : String} {st' : PState}
    (h : handleShowEntity st ts e c = .ok st') : st'.ast = st.ast := by
  simp only [handleShowEntity] at h
  repeat' split at h
  all_goals first
    | (injection h with h'; subst h'; simp [appendChild])
    | injection h

theorem handleHideEntity_ast {st : PState} {ts e t v : String} {st' : PState}
    (h : handleHideEntity st ts e t v = .ok st') : st'.ast = st.ast := by
  simp only [handleHideEntity] at h
  repeat' split at h
  all_goals first
    | (injection h with h'; subst h'; simp [appendChild])
    | injection h

theorem handleHideEntity_entityDef {st : PState} {ts e t v : String} {st' : PState}
    (h : handleHideEntity st ts e t v = .ok st') : st'.entityDef = st.entityDef := by
  simp only [handleHideEntity] at h
  repeat' split at h
  all_goals first
    | (injection h with h'; subst h'; simp [appendChild])
    | injection h

theorem handleActionStart_ast {st : PState} {ts : String} {ind : Nat}
    {e ty ix tg : String} {st' : PState}
    (h : handleActionStart st ts ind e ty ix tg = .ok st') : st'.ast = st.ast := by
  simp only [handleActionStart] at h
  repeat' split at h
  all_goals first
    | (injection h with h'; subst h'; simp [appendChild])
    | injection h

theorem handleActionStart_entityDef {st : PState} {ts : String} {ind : Nat}
    {e ty ix tg : String} {st' : PState}
    (h : handleActionStart st ts ind e ty ix tg = .ok st') :
    st'.entityDef = st.entityDef := by
  simp only [handleActionStart] at h
  repeat' split at h
  all_goals first
    | (injection h with h'; subst h'; simp [appendChild])
    | injection h

theorem handleMetaData_ast {st : PState} {ts m d i : String} {st' : PState}
    (h : handleMetaData st ts m d i = .ok st') : st'.ast = st.ast := by
  simp only [handleMetaData] at h
  repeat' split at h
  all_goals first
    | (injection h with h'; subst h'; simp [appendChild])
    | injection h

theorem handleMetaData_entityDef {st : PState} {ts m d i : String} {st' : PState}
    (h : handleMetaData st ts m d i = .ok st') : st'.entityDef = st.entityDef := by
  simp only [handleMetaData] at h
  repeat' split at h
  all_goals first
    | (injection h with h'; subst h'; simp [appendChild])
    | injection h

theorem handleGameEntity_ast {st : PState} {ts i : String} {st' : PState}
    (h : handleGameEntity st ts i = .ok st') : st'.ast = st.ast := by
  simp only [handleGameEntity] at h
  repeat' split at h
  all_goals first
    | (injection h with h'; subst h'; simp [appendChild])
    | injection h

theorem handlePlayer_ast {st : PState} {ts i p hi lo : String} {st' : PState}
    (h : handlePlayer st ts i p hi lo = .ok st') : st'.ast = st.ast := by
  simp only [handlePlayer] at h
  repeat' split at h
  all_goals first
    | (injection h with h'; subst h'; simp [appendChild])
    | injection h

theorem handleActionEnd_ast {st st' : PState}
    (h : handleActionEnd st = .ok st') : st'.ast = st.ast := by
  simp only [handleActionEnd] at h
  repeat' split at h
  all_goals first
    | (injection h with h'; subst h'; simp)
    | injection h

theorem handleActionEnd_entityDef {st st' : PState}
    (h : handleActionEnd st = .ok st') : st'.entityDef = st.entityDef := by
  simp only [handleActionEnd] at h
  repeat' split at h
  all_goals first
    | (injection h with h'; subst h'; simp)
    | injection h

theorem handle_send_choices_ast {st : PState} {ts d : String} {st' : PState}
    (h : handle_send_choices st ts d = .ok st') : st'.ast = st.ast := by
  simp only [handle_send_choices] at h
  repeat' split at h
  all_goals first
    | (injection h with h'; subst h'; simp [appendChild, pushWarn])
    | injection h

theorem handle_choices_ast {st : PState} {ts d : String} {st' : PState}
    (h : handle_choices st ts d = .ok st') : st'.ast = st.ast := by
  simp only [handle_choices] at h
  repeat' split at h
  all_goals first
    | (injection h with h'; subst h'; simp [appendChild, pushWarn])
    | injection h

theorem handle_options_ast {st : PState} {ts d : String} {st' : PState}
    (h : handle_options st ts d = .ok st') : st'.ast = st.ast := by
  simp only [handle_options] at h
  repeat' split at h
  all_goals first
    | (injection h with h'; subst h'; simp [appendChild, pushWarn])
    | injection h

theorem handle_send_option_ast {st : PState} {ts d : String} {st' : PState}
    (h : handle_send_option st ts d = .ok st') : st'.ast = st.ast := by
  simp only [handle_send_option] at h
  repeat' split at h
  all_goals first
    | (injection h with h'; subst h'; simp [appendChild, pushWarn])
    | injection h

theorem handleActionTag_error_of_none (st : PState) (ts tg v : String)
    (hed : st.entityDef = none) :
    ∃ e, handleActionTag st ts tg v = .error e := by
  by_cases hcp : tg = "CURRENT_PLAYER" <;>
    simp [handleActionTag, actionTagSeed, hcp, hed]

theorem handle_data_ast {st : PState} {ts data : String} {st' : PState}
    (h : handle_data st ts data = .ok st') :
    st'.ast = if pylstrip data = "CREATE_GAME" then st.ast ++ [st.arena.length]
              else st.ast := by
  by_cases hcg : pylstrip data = "CREATE_GAME"
  · rw [if_pos hcg]
    simp only [handle_data, hcg] at h
    rw [show actionTagMatch "CREATE_GAME" = none from by decide] at h
    rw [show tagChangeMatch "CREATE_GAME" = none from by decide] at h
    rw [show fullEntity1Match "CREATE_GAME" = none from by decide] at h
    rw [show fullEntity2Match "CREATE_GAME" = none from by decide] at h
    rw [show showEntityMatch "CREATE_GAME" = none from by decide] at h
    rw [show hideEntityMatch "CREATE_GAME" = none from by decide] at h
    rw [show actionStartMatch "CREATE_GAME" = none from by decide] at h
    rw [show metaDataMatch "CREATE_GAME" = none from by decide] at h
    rw [show createGameMatch "CREATE_GAME" = none from by decide] at h
    rw [show playerMatch "CREATE_GAME" = none from by decide] at h
    simp only [if_pos rfl] at h
    injection h with h'
    subst h'
    simp [create_game]
  · rw [if_neg hcg]
    simp only [handle_data] at h
    repeat' split at h
    all_goals first
      | exact handleActionTag_ast h
      | exact handleTagChange_ast h
      | exact handleFullEntity_ast h
      | exact handleShowEntity_ast h
      | exact handleHideEntity_ast h
      | exact handleActionStart_ast h
      | exact handleMetaData_ast h
      | exact handleGameEntity_ast h
      | exact handlePlayer_ast h
      | exact handleActionEnd_ast h
      | exact absurd (by assumption) hcg
      | (injection h with h'; subst h'; simp [pushWarn])

theorem add_data_ast_len {st : PState} {ts m d : String} {st' : PState}
    (h : add_data st ts m d = .ok st') :
    st'.ast.length =
      st.ast.length + (if isCreateGameLine (ts, m, d) then 1 else 0) := by
  simp only [add_data] at h
  split at h
  · next hm =>
    have := handle_data_ast h
    by_cases hcg : pylstrip d = "CREATE_GAME"
    · rw [if_pos hcg] at this
      simp [this, isCreateGameLine, hm, hcg]
    · rw [if_neg hcg] at this
      simp [this, isCreateGameLine, hm, hcg]
  · split at h
    · have := handle_send_choices_ast h
      next hm1 hm2 => simp [this, isCreateGameLine, hm1]
    · split at h
      · have := handle_choices_ast h
        next hm1 hm2 hm3 => simp [this, isCreateGameLine, hm1]
      · split at h
        · have := handle_options_ast h
          next hm1 hm2 hm3 hm4 => simp [this, isCreateGameLine, hm1]
        · split at h
          · have := handle_send_option_ast h
            next hm1 hm2 hm3 hm4 hm5 => simp [this, isCreateGameLine, hm1]
          · injection h with h'
            subst h'
            next hm1 hm2 hm3 hm4 hm5 => simp [isCreateGameLine, hm1]

theorem processLines_count {lines : List (String × String × String)} :
    ∀ {st st' : PState}, processLines st lines = .ok st' →
      st'.ast.length = st.ast.length + lines.countP isCreateGameLine := by
  induction lines with
  | nil =>
    intro st st' h
    injection h with h'
    subst h'
    simp
  | cons hd tl ih =>
    intro st st' h
    obtain ⟨ts, m, d⟩ := hd
    simp only [processLines] at h
    split at h
    · injection h
    · next st1 ha =>
      have h1 := add_data_ast_len ha
      have h2 := ih h
      rw [List.countP_cons]
      by_cases hc : isCreateGameLine (ts, m, d) = true
      · rw [if_pos hc] at h1
        rw [if_pos hc]
        omega
      · rw [if_neg hc] at h1
        rw [if_neg hc]
        omega

theorem getN_entityDef_irrel (st : PState) (x : Option Nat) (i : Nat) :
    getN { st with entityDef := x } i = getN st i := rfl

theorem handleGameEntity_ok {st : PState} {ts i : String} {st' : PState}
    (h : handleGameEntity st ts i = .ok st') :
    i = "1" ∧ ∃ g, st.game = some g ∧
      (g < st.arena.length → (getN st' g).gid = some "1") := by
  simp only [handleGameEntity] at h
  split at h
  · next h1 =>
    subst h1
    split at h
    · injection h
    · next g heqg =>
      split at h
      · injection h
      · next cur heqc =>
        injection h with h'
        subst h'
        refine ⟨rfl, g, heqg, fun hg => ?_⟩
        have hbase : (getN (addNode (modN st g (fun n => { n with gid := some "1" }))
            (mkNode "GameEntity" ts [("id", AttrVal.str "1")])).1 g).gid = some "1" := by
          rw [getN_addNode, if_neg (by simp; omega), getN_modN, if_pos ⟨rfl, hg⟩]
        rw [getN_entityDef_irrel]
        simp only [appendChild]
        rw [getN_modN]
        split
        · next hcond =>
          obtain ⟨hgc, _⟩ := hcond
          show (getN (addNode (modN st g _) _).1 cur).gid = some "1"
          rw [← hgc]
          exact hbase
        · exact hbase
  · injection h

theorem handleGameEntity_assert {st : PState} {ts i : String} (hne : i ≠ "1") :
    handleGameEntity st ts i = .error "AssertionError: id == 1" := by
  simp [handleGameEntity, hne]

theorem register_player_id_players {st : PState} {g : Nat} {e i : String}
    {st' : PState} (h : register_player_id st g e i = .ok st')
    (hg : g < st.arena.length) :
    dictGet (getN st' g).players e = some i := by
  simp only [register_player_id] at h
  split at h
  · injection h
  · next pidx heqp =>
    injection h with h'
    subst h'
    rw [getN_modN]
    split
    · next hcond =>
      obtain ⟨hgp, _⟩ := hcond
      dsimp only
      rw [← hgp, getN_modN, if_pos ⟨rfl, hg⟩]
      exact dictGet_dictSet_self _ _ _
    · rw [getN_modN, if_pos ⟨rfl, hg⟩]
      exact dictGet_dictSet_self _ _ _

theorem getN_players_modN (st : PState) (j : Nat) (f : PNode → PNode)
    (hf : ∀ n, (f n).players = n.players) (i : Nat) :
    (getN (modN st j f) i).players = (getN st i).players := by
  rw [getN_modN]
  split
  · next hc =>
    obtain ⟨hij, _⟩ := hc
    subst hij
    exact hf (getN st i)
  · rfl

theorem getN_players_indentMod (st : PState) (j : Nat) (v : Option Nat) (i : Nat) :
    (getN (modN st j (fun n => { n with indentLevel := v })) i).players =
      (getN st i).players :=
  getN_players_modN st j (fun n => { n with indentLevel := v }) (fun _ => rfl) i

theorem getN_players_appendChild (st : PState) (p c i : Nat) :
    (getN (appendChild st p c) i).players = (getN st i).players :=
  getN_players_modN st p (fun n => { n with children := n.children ++ [c] }) (fun _ => rfl) i

theorem tagChange_entity_id_registers {st : PState} {ts data : String}
    {st' : PState} {ent v : String} {g : Nat}
    (hm : tagChangeMatch (pylstrip data) = some (ent, "ENTITY_ID", v))
    (hname : pyIsDigit ent = false) (hbr : startsWithCh ent '[' = false)
    (hge : ent ≠ "GameEntity")
    (hgame : st.game = some g) (hg : g < st.arena.length)
    (h : handle_data st ts data = .ok st') :
    dictGet (getN st' g).players ent = some v := by
  simp only [handle_data, actionTag_none_of_tagChange hm, hm] at h
  simp only [handleTagChange, tagChangeTrack] at h
  rw [if_pos trivial] at h
  rw [if_pos (show (!pyIsDigit ent && !startsWithCh ent '[' &&
    decide (ent ≠ "GameEntity")) = true by simp [hname, hbr, hge])] at h
  simp only [hgame] at h
  split at h
  · injection h
  · next st2 hr =>
    have hlen2 : st2.arena.length = st.arena.length := (register_player_id_shape hr).1
    have hpl : dictGet (getN st2 g).players ent = some v :=
      register_player_id_players hr (by exact hg)
    split at h
    · injection h
    · next ev hpe =>
      split at h
      · injection h
      · next cur hcur =>
        split at h
        · injection h
        · next il hil =>
          split at h
          · injection h
          · next cur2 htgt =>
            injection h with h'
            subst h'
            rw [getN_currentNode_irrel, getN_players_indentMod, getN_players_appendChild]
            rw [getN_addNode, if_neg (by omega)]
            exact hpl

theorem entityDef_reopen_only {st : PState} {ts data : String} {st' : PState}
    (h : handle_data st ts data = .ok st')
    (hed : st.entityDef = none) (hne : st'.entityDef ≠ none) :
    (fullEntity1Match (pylstrip data)).isSome ∨
    (fullEntity2Match (pylstrip data)).isSome ∨
    (showEntityMatch (pylstrip data)).isSome ∨
    (createGameMatch (pylstrip data)).isSome ∨
    (playerMatch (pylstrip data)).isSome := by
  rcases h1 : actionTagMatch (pylstrip data) with _ | ⟨tg, v⟩
  · rcases h2 : tagChangeMatch (pylstrip data) with _ | ⟨e3, t3, v3⟩
    · rcases h3 : fullEntity1Match (pylstrip data) with _ | r3
      · rcases h4 : fullEntity2Match (pylstrip data) with _ | r4
        · rcases h5 : showEntityMatch (pylstrip data) with _ | r5
          · rcases h6 : hideEntityMatch (pylstrip data) with _ | r6
            · rcases h7 : actionStartMatch (pylstrip data) with _ | r7
              · rcases h8 : metaDataMatch (pylstrip data) with _ | r8
                · rcases h9 : createGameMatch (pylstrip data) with _ | r9
                  · rcases h10 : playerMatch (pylstrip data) with _ | r10
                    · exfalso
                      simp only [handle_data, h1, h2, h3, h4, h5, h6, h7, h8,
                        h9, h10] at h
                      by_cases hcg : pylstrip data = "CREATE_GAME"
                      · rw [if_pos hcg] at h
                        injection h with h'
                        exact hne ((congrArg PState.entityDef h'.symm).trans hed)
                      · rw [if_neg hcg] at h
                        by_cases hae : pylstrip data = "ACTION_END"
                        · rw [if_pos hae] at h
                          exact hne ((handleActionEnd_entityDef h).trans hed)
                        · rw [if_neg hae] at h
                          injection h with h'
                          exact hne ((congrArg PState.entityDef h'.symm).trans hed)
                    · simp [h10]
                  · simp [h9]
                · exfalso
                  simp only [handle_data, h1, h2, h3, h4, h5, h6, h7, h8] at h
                  exact hne ((handleMetaData_entityDef h).trans hed)
              · exfalso
                simp only [handle_data, h1, h2, h3, h4, h5, h6, h7] at h
                exact hne ((handleActionStart_entityDef h).trans hed)
            · exfalso
              simp only [handle_data, h1, h2, h3, h4, h5, h6] at h
              exact hne ((handleHideEntity_entityDef h).trans hed)
          · simp [h5]
        · simp [h4]
      · simp [h3]
    · exfalso
      simp only [handle_data, h1, h2] at h
      exact hne (handleTagChange_entityDef h)
  · exfalso
    simp only [handle_data, h1] at h
    obtain ⟨e, he⟩ := handleActionTag_error_of_none st ts tg v hed
    rw [he] at h
    injection h


theorem coreEq_pushWarn (st : PState) (w : String) : coreEq (pushWarn st w) st :=
  ⟨rfl, rfl, rfl, rfl, rfl, rfl, rfl, rfl, rfl, rfl⟩

theorem coreEq_refl (st : PState) : coreEq st st :=
  ⟨rfl, rfl, rfl, rfl, rfl, rfl, rfl, rfl, rfl, rfl⟩

theorem handle_data_unmatched {st : PState} {ts data : String}
    (h1 : actionTagMatch (pylstrip data) = none)
    (h2 : tagChangeMatch (pylstrip data) = none)
    (h3 : fullEntity1Match (pylstrip data) = none)
    (h4 : fullEntity2Match (pylstrip data) = none)
    (h5 : showEntityMatch (pylstrip data) = none)
    (h6 : hideEntityMatch (pylstrip data) = none)
    (h7 : actionStartMatch (pylstrip data) = none)
    (h8 : metaDataMatch (pylstrip data) = none)
    (h9 : createGameMatch (pylstrip data) = none)
    (h10 : playerMatch (pylstrip data) = none)
    (h11 : pylstrip data ≠ "CREATE_GAME")
    (h12 : pylstrip data ≠ "ACTION_END") :
    handle_data st ts data =
      .ok (pushWarn st ("Warning: Unhandled data: " ++ pyRepr (pylstrip data) ++ "\n")) := by
  simp only [handle_data, h1, h2, h3, h4, h5, h6, h7, h8, h9, h10]
  rw [if_neg h11, if_neg h12]

theorem handle_send_choices_unmatched {st : PState} {ts data : String}
    (h1 : sendChoicesTypeMatch (pylstrip data) = none)
    (h2 : sendChoicesEntitiesMatch (pylstrip data) = none) :
    handle_send_choices st ts data =
      .ok (pushWarn st ("Warning: Unhandled sent choices: " ++ pyRepr (pylstrip data) ++ "\n")) := by
  simp only [handle_send_choices, h1, h2]

theorem handle_choices_unmatched {st : PState} {ts data : String}
    (h1 : choicesChoiceMatch (pylstrip data) = none)
    (h2 : choicesSourceMatch (pylstrip data) = none)
    (h3 : choicesEntitiesMatch (pylstrip data) = none) :
    handle_choices st ts data = .ok st := by
  simp only [handle_choices, h1, h2, h3]

theorem handle_options_unmatched {st : PState} {ts data : String}
    (h1 : optionsEntityMatch (pylstrip data) = none)
    (h2 : optionsOptionMatch (pylstrip data) = none)
    (h3 : optionsSubOptionMatch (pylstrip data) = none) :
    handle_options st ts data =
      .ok (pushWarn st ("Warning: Unimplemented options: " ++ pyRepr (pylstrip data) ++ "\n")) := by
  simp only [handle_options, h1, h2, h3]

theorem handle_send_option_unmatched {st : PState} {ts data : String}
    (h1 : sendOptionMatch (pylstrip data) = none) :
    handle_send_option st ts data = .ok st := by
  simp only [handle_send_option, h1]

theorem entityREMatch_empty : entityREMatch "" = none := by decide

theorem entityREMatch_of_head {s : String} (h : startsWithCh s '[' = false) :
    entityREMatch s = none := by
  unfold entityREMatch
  split
  · next rest heq =>
    unfold startsWithCh at h
    rw [heq] at h
    simp at h
  · rfl

theorem startsWithCh_of_digits {s : String} (h : pyIsDigit s = true) :
    startsWithCh s '[' = false := by
  unfold pyIsDigit at h
  unfold startsWithCh
  cases hl : s.toList with
  | nil => rfl
  | cons c cs =>
    rw [hl] at h
    simp at h
    have hc : c.isDigit = true := h.1
    have : ¬c = '[' := by
      intro he
      rw [he] at hc
      exact absurd hc (by decide)
    simp [this]

theorem ne_empty_of_digits {s : String} (h : pyIsDigit s = true) : s ≠ "" := by
  intro he
  rw [he] at h
  exact absurd h (by decide)

theorem ne_gameentity_of_digits {s : String} (h : pyIsDigit s = true) :
    s ≠ "GameEntity" := by
  intro he
  rw [he] at h
  exact absurd h (by decide)

theorem register_player_id_pn {st : PState} {g : Nat} {e i : String}
    {st' : PState} (h : register_player_id st g e i = .ok st') (j : Nat) :
    (getN st' j).playernodes = (getN st j).playernodes := by
  simp only [register_player_id] at h
  split at h
  · injection h
  · injection h with h'
    subst h'
    rw [getN_modN]
    split
    · next hc =>
      obtain ⟨hj, _⟩ := hc
      subst hj
      dsimp only
      rw [getN_modN]
      split
      · next hc2 =>
        obtain ⟨hj2, _⟩ := hc2
        rw [hj2]
      · rfl
    · rw [getN_modN]
      split
      · next hc2 =>
        obtain ⟨hj2, _⟩ := hc2
        rw [hj2]
      · rfl

/-- C1 (counterexample): in a match with exactly two known player nodes
(`2` and `3`) and the tentative first-player slot holding `2`, the
attribute-change line setting `CURRENT_PLAYER` to `0` on `Bob` registers
`Bob` to `2` — the tentative FIRST player — and not to the other player
`3` as the claim states. -/
theorem c1_zero_registers_first_not_other :
    (getN c1before 0).playernodes = [("2", 2), ("3", 4)] ∧
    (getN c1before 0).firstPlayer = some "2" ∧
    handle_data c1before "t6" "TAG_CHANGE Entity=Bob tag=CURRENT_PLAYER value=0" =
      .ok c1after ∧
    dictGet (getN c1after 0).players "Bob" = some "2" ∧
    ¬ dictGet (getN c1after 0).players "Bob" = some "3" := by
  refine ⟨by decide, by decide, by decide, by decide, by decide⟩

/-- C1 (amended): when `update_current_player` receives value `"0"` for a
named entity while the tentative first-player slot holds `f` and exactly
two player nodes are known, the name is registered to `f` itself (the
tentative first player), and the id of the OTHER node is only recorded in the
second-player slot for a later value-`"1"` signal. -/
theorem update_current_player_zero_registers_first {st : PState} {g : Nat}
    {entity f k2 : String} {i1 i2 : Nat} {st' : PState}
    (hf : (getN st g).firstPlayer = some f) (hf0 : f ≠ "")
    (hpn : (getN st g).playernodes = [(f, i1), (k2, i2)]) (hk2 : k2 ≠ f)
    (hg : g < st.arena.length)
    (h : update_current_player st g entity "0" = .ok st') :
    dictGet (getN st' g).players entity = some f ∧
    (getN st' g).secondPlayer = some k2 := by
  simp only [update_current_player, hf] at h
  rw [if_pos (by simp [optTruthy, hf0])] at h
  split at h
  · injection h
  · next st1 hr =>
    have hlen1 : st1.arena.length = st.arena.length := (register_player_id_shape hr).1
    have hpl : dictGet (getN st1 g).players entity = some f :=
      register_player_id_players hr hg
    rw [register_player_id_pn hr g, hpn] at h
    rw [show (([(f, i1), (k2, i2)] : List (String × Nat)).map Prod.fst).filter
      (fun p => p ≠ f) = [k2] from by simp [hk2]] at h
    injection h with h'
    subst h'
    constructor
    · rw [getN_players_modN st1 g (fun n => { n with secondPlayer := some k2 })
        (fun _ => rfl) g]
      exact hpl
    · rw [getN_modN, if_pos ⟨rfl, by omega⟩]


/-- C1 (counterexample): in a match with exactly two known player nodes
(`2` and `3`) and the tentative first-player slot holding `2`, the
attribute-change line setting `CURRENT_PLAYER` to `0` on `Bob` registers
`Bob` to `2` — the tentative FIRST player — and not to the other player
`3` as the claim states. -/

theorem update_current_player_zero_registers_first_witness :
    dictGet (getN (exOk (update_current_player c1before 0 "Bob" "0")) 0).players "Bob" =
      some "2" ∧
    (getN (exOk (update_current_player c1before 0 "Bob" "0")) 0).secondPlayer =
      some "3" :=
  update_current_player_zero_registers_first
    (show (getN c1before 0).firstPlayer = some "2" by decide)
    (by decide)
    (show (getN c1before 0).playernodes = [("2", 2), ("3", 4)] by decide)
    (by decide)
    (by decide)
    (by decide)

/-- C2: for every parse state whose current block was opened at
indentation `d`, a `TAG_CHANGE` line arriving at indentation strictly
shallower than `d` pops exactly one level before appending: the new
`TagChange` node is appended as a child of the parent (ancestor) block,
which also becomes the current node. -/
theorem tag_change_shallower_pops_one_level {st : PState} {ts data : String}
    {st' : PState} {ent tg vl : String} {c d p : Nat}
    (hm : tagChangeMatch (pylstrip data) = some (ent, tg, vl))
    (hcur : st.currentNode = some c)
    (hil : (getN st c).indentLevel = some d)
    (hpar : (getN st c).parent = some p)
    (hp : p < st.arena.length)
    (hind : data.length - (pylstrip data).length < d)
    (h : handle_data st ts data = .ok st') :
    st'.currentNode = some p ∧
    (getN st' p).children = (getN st p).children ++ [st.arena.length] ∧
    (getN st' st.arena.length).kind = "TagChange" ∧
    (getN st' p).indentLevel = some (data.length - (pylstrip data).length) := by
  simp only [handle_data, actionTag_none_of_tagChange hm, hm] at h
  exact handleTagChange_pop hcur hil hpar hp hind h

theorem tag_change_shallower_pops_one_level_witness :
    c2after.currentNode = some 2 ∧
    (getN c2after 2).children = (getN c2before 2).children ++ [c2before.arena.length] ∧
    (getN c2after c2before.arena.length).kind = "TagChange" ∧
    (getN c2after 2).indentLevel = some (c2line.length - (pylstrip c2line).length) :=
  tag_change_shallower_pops_one_level
    (show tagChangeMatch (pylstrip c2line) = some ("1", "ZONE", "PLAY") by decide)
    (show c2before.currentNode = some 3 by decide)
    (show (getN c2before 3).indentLevel = some 2 by decide)
    (show (getN c2before 3).parent = some 2 by decide)
    (by decide)
    (by decide)
    (show handle_data c2before "t5" c2line = .ok c2after by decide)

/-- C8 (counterexample): after the second `CREATE_GAME` marker, the
entity-being-defined context still points at node 1 — the FIRST
`GameEntity` node (a child of the first game, node 0) — and the next
attribute-set line appends a `Tag` node into the sealed
tree. The parse context is not discarded when a new match begins. -/
theorem create_game_keeps_stale_entity_def :
    c8mid.ast = [0, 2] ∧ c8mid.game = some 2 ∧
    c8mid.entityDef = some 1 ∧ (getN c8mid 0).children = [1] ∧
    handle_data c8mid "t4" "tag=FOO value=1" = .ok c8after ∧
    (getN c8after 1).children = [3] ∧ (getN c8after 3).kind = "Tag" := by
  refine ⟨by decide, by decide, by decide, by decide, by decide, by decide, by decide⟩

/-- C8 (amended): a match-start marker creates a fresh game node with
fresh (empty) identity tables and resets the current insertion node to
it, but leaves the entity-being-defined context and all four
choices/options/option/send-choices cursors unchanged from the previous
match. -/
theorem create_game_resets_only_game_state (st : PState) (ts : String) :
    (create_game st ts).game = some st.arena.length ∧
    (create_game st ts).currentNode = some st.arena.length ∧
    (create_game st ts).ast = st.ast ++ [st.arena.length] ∧
    (getN (create_game st ts) st.arena.length).players = [] ∧
    (getN (create_game st ts) st.arena.length).playernodes = [] ∧
    (create_game st ts).entityDef = st.entityDef ∧
    (create_game st ts).currentChoiceNode = st.currentChoiceNode ∧
    (create_game st ts).currentSendChoiceNode = st.currentSendChoiceNode ∧
    (create_game st ts).currentOptionsNode = st.currentOptionsNode ∧
    (create_game st ts).currentOptionNode = st.currentOptionNode ∧
    (create_game st ts).lastOptionNode = st.lastOptionNode := by
  have harena : getN (create_game st ts) st.arena.length = newGameNode ts := by
    have h0 : getN (create_game st ts) st.arena.length =
        getN (addNode st (newGameNode ts)).1 st.arena.length := rfl
    rw [h0, getN_addNode, if_pos rfl]
  exact ⟨rfl, rfl, rfl, by rw [harena]; rfl, by rw [harena]; rfl,
    rfl, rfl, rfl, rfl, rfl, rfl⟩

theorem ts_not_in_attrOrder (k : String) : "ts" ∉ attrOrder k := by
  unfold attrOrder
  repeat' split
  all_goals decide

/-- C9: the serializer never emits a timestamp attribute for any node —
`Node.xml` iterates only the per-kind `attributes` tuple, which never
contains `ts`, so the `if attr == "ts"` guard is dead code; in particular
an `Action` node (timestamp-bearing kind) with the non-empty captured
timestamp `01:23:45.678` is serialized without any `ts` attribute,
contradicting the claimed present-iff condition. -/
theorem xml_never_emits_timestamp :
    (∀ (arena : List PNode) (fuel i : Nat),
      ((nodeXml arena fuel i).attribs.filter (fun a => a.1 = "ts")) = []) ∧
    (timestampFlag "Action" = true ∧ (getN { arena := c9arena } 0).ts ≠ "" ∧
      (nodeXml c9arena 1 0).attribs =
        [("entity", "1"), ("type", "ATTACK"), ("index", "0")]) := by
  constructor
  · intro arena fuel i
    cases fuel with
    | zero => rfl
    | succ f =>
      simp only [nodeXml]
      rw [List.filter_eq_nil_iff]
      intro a ha
      rw [List.mem_filterMap] at ha
      obtain ⟨x, hx, hfx⟩ := ha
      have hxts : x ≠ "ts" := by
        intro he
        subst he
        exact ts_not_in_attrOrder _ hx
      by_cases hg : (x = "ts" && !timestampFlag (arena.getD i dummyNode).kind) = true
      · rw [if_pos hg] at hfx
        cases hfx
      · rw [if_neg hg] at hfx
        rcases hd : dictGet (arena.getD i dummyNode).attrs x with _ | v
        · simp only [hd] at hfx
          exact Option.noConfusion hfx
        · simp only [hd] at hfx
          by_cases htr : attrTruthy v = true
          · rw [if_pos htr] at hfx
            injection hfx with hfx'
            subst hfx'
            simp [hxts]
          · rw [if_neg htr] at hfx
            cases hfx
  · exact ⟨rfl, by decide, by decide⟩

/-- C10: the `TAG_CHANGE` branch closes the entity-being-defined context;
an attribute-set (`tag=… value=…`) line arriving while that context is
absent makes the parser raise (the fatal internal assertion); and a
successful line re-opens the context only if it matched one of the four
entity-definition shapes (`FULL_ENTITY` in either form, `SHOW_ENTITY`,
`GameEntity`, `Player`). -/
theorem entity_def_lifecycle :
    (∀ (st : PState) (ts data : String) (st' : PState)
        (x : String × String × String), tagChangeMatch (pylstrip data) = some x →
        handle_data st ts data = .ok st' → st'.entityDef = none) ∧
    (∀ (st : PState) (ts data : String) (x : String × String),
        st.entityDef = none → actionTagMatch (pylstrip data) = some x →
        ∃ e, handle_data st ts data = .error e) ∧
    (∀ (st : PState) (ts data : String) (st' : PState),
        handle_data st ts data = .ok st' → st.entityDef = none →
        st'.entityDef ≠ none →
        (fullEntity1Match (pylstrip data)).isSome ∨
        (fullEntity2Match (pylstrip data)).isSome ∨
        (showEntityMatch (pylstrip data)).isSome ∨
        (createGameMatch (pylstrip data)).isSome ∨
        (playerMatch (pylstrip data)).isSome) := by
  refine ⟨?_, ?_, ?_⟩
  · intro st ts data st' x hm h
    obtain ⟨e1, t1, v1⟩ := x
    simp only [handle_data, actionTag_none_of_tagChange hm, hm] at h
    exact handleTagChange_entityDef h
  · intro st ts data x hed hm
    obtain ⟨t1, v1⟩ := x
    simp only [handle_data, hm]
    exact handleActionTag_error_of_none st ts t1 v1 hed
  · intro st ts data st' h hed hne
    exact entityDef_reopen_only h hed hne

theorem entity_def_lifecycle_witness :
    c10b.entityDef = none ∧
    (∃ e, handle_data c10b "t4" "tag=B value=2" = .error e) ∧
    ((fullEntity1Match (pylstrip "FULL_ENTITY - Creating ID=4 CardID=EX1")).isSome ∨
     (fullEntity2Match (pylstrip "FULL_ENTITY - Creating ID=4 CardID=EX1")).isSome ∨
     (showEntityMatch (pylstrip "FULL_ENTITY - Creating ID=4 CardID=EX1")).isSome ∨
     (createGameMatch (pylstrip "FULL_ENTITY - Creating ID=4 CardID=EX1")).isSome ∨
     (playerMatch (pylstrip "FULL_ENTITY - Creating ID=4 CardID=EX1")).isSome) :=
  ⟨entity_def_lifecycle.1 c10a "t3" "TAG_CHANGE Entity=1 tag=A value=1" c10b
      ("1", "A", "1") (by decide) (by decide),
   entity_def_lifecycle.2.1 c10b "t4" "tag=B value=2" ("B", "2")
      (by decide) (by decide),
   entity_def_lifecycle.2.2 c10b "t5" "FULL_ENTITY - Creating ID=4 CardID=EX1" c10c
      (by decide) (by decide) (by decide)⟩

/-- C3: the case analysis of the reference resolver — empty input resolves to
no reference; a bracketed descriptor resolves to its `id=` digits; `"0"`
resolves to no reference; `"GameEntity"` resolves to the match root id;
a digit string resolves to itself; any other name resolves through the
identity table, else to a deferred reference bound to the name and the
table of the owning game.  The resolver is a pure function of the state (it
returns only a value), so it never mutates the identity table. -/
theorem parse_entity_resolution :
    (∀ st : PState, parse_entity st "" = .ok .null) ∧
    (∀ (st : PState) (s i : String), entityREMatch s = some i →
        parse_entity st s = .ok (.str i)) ∧
    entityREMatch "[id=42 extra=stuff]" = some "42" ∧
    (∀ st : PState, parse_entity st "0" = .ok .null) ∧
    (∀ (st : PState) (g : Nat) (i : String), st.game = some g →
        (getN st g).gid = some i → parse_entity st "GameEntity" = .ok (.str i)) ∧
    (∀ (st : PState) (s : String), pyIsDigit s = true → s ≠ "0" →
        parse_entity st s = .ok (.str s)) ∧
    (∀ (st : PState) (g : Nat) (s v : String), st.game = some g → s ≠ "" →
        entityREMatch s = none → s ≠ "0" → s ≠ "GameEntity" →
        pyIsDigit s = false → dictGet (getN st g).players s = some v →
        parse_entity st s = .ok (.str v)) ∧
    (∀ (st : PState) (g : Nat) (s : String), st.game = some g → s ≠ "" →
        entityREMatch s = none → s ≠ "0" → s ≠ "GameEntity" →
        pyIsDigit s = false → dictGet (getN st g).players s = none →
        parse_entity st s = .ok (.deferredP g s)) := by
  refine ⟨?_, ?_, by decide, ?_, ?_, ?_, ?_, ?_⟩
  · intro st
    simp [parse_entity]
  · intro st s i hm
    have hs0 : s ≠ "" := by
      intro he
      rw [he, entityREMatch_empty] at hm
      cases hm
    simp only [parse_entity, if_neg hs0, hm]
  · intro st
    simp only [parse_entity]
    rw [if_neg (by decide : ¬("0" : String) = "")]
    rw [show entityREMatch "0" = none from by decide]
    simp
  · intro st g i hgame hgid
    simp only [parse_entity]
    rw [if_neg (by decide : ¬("GameEntity" : String) = "")]
    rw [show entityREMatch "GameEntity" = none from by decide]
    rw [if_neg (by decide : ¬("GameEntity" : String) = "0")]
    simp [hgame, hgid]
  · intro st s hd h0
    have hs0 := ne_empty_of_digits hd
    have hre := entityREMatch_of_head (startsWithCh_of_digits hd)
    have hge := ne_gameentity_of_digits hd
    simp only [parse_entity, hre]
    rw [if_neg hs0, if_neg h0, if_neg hge]
    simp [hd]
  · intro st g s v hgame hs0 hre h0 hge hdig hlook
    simp only [parse_entity, hre]
    rw [if_neg hs0, if_neg h0, if_neg hge]
    simp only [hdig, Bool.false_eq_true, if_false, hgame, hlook]
  · intro st g s hgame hs0 hre h0 hge hdig hlook
    simp only [parse_entity, hre]
    rw [if_neg hs0, if_neg h0, if_neg hge]
    simp only [hdig, Bool.false_eq_true, if_false, hgame, hlook]

theorem parse_entity_resolution_witness :
    parse_entity initPState "" = .ok .null ∧
    parse_entity initPState "[id=42 extra=stuff]" = .ok (.str "42") ∧
    parse_entity initPState "0" = .ok .null ∧
    parse_entity c10a "GameEntity" = .ok (.str "1") ∧
    parse_entity initPState "42" = .ok (.str "42") ∧
    parse_entity c4state "Alice" = .ok (.str "7") ∧
    parse_entity c10a "Bob" = .ok (.deferredP 0 "Bob") :=
  ⟨parse_entity_resolution.1 initPState,
   parse_entity_resolution.2.1 initPState "[id=42 extra=stuff]" "42" (by decide),
   parse_entity_resolution.2.2.2.1 initPState,
   parse_entity_resolution.2.2.2.2.1 c10a 0 "1" (by decide) (by decide),
   parse_entity_resolution.2.2.2.2.2.1 initPState "42" (by decide) (by decide),
   parse_entity_resolution.2.2.2.2.2.2.1 c4state 0 "Alice" "7" (by decide) (by decide)
     (by decide) (by decide) (by decide) (by decide) (by decide),
   parse_entity_resolution.2.2.2.2.2.2.2 c10a 0 "Bob" (by decide) (by decide)
     (by decide) (by decide) (by decide) (by decide) (by decide)⟩

/-- C4: a deferred player reference renders, after parsing completes, as
the identifier its name maps to in the identity table of the owning game, and
as the `UNKNOWN PLAYER` placeholder (a total rendering, not an exception)
when no identity signal was ever seen; an explicit-identifier
(`ENTITY_ID`) attribute-change line on a named entity enters that
mapping into the table. -/
theorem deferred_reference_rendering :
    (∀ (arena : List PNode) (g : Nat) (name i : String),
        dictGet (arena.getD g dummyNode).players name = some i →
        renderAttrVal arena (.deferredP g name) = i) ∧
    (∀ (arena : List PNode) (g : Nat) (name : String),
        dictGet (arena.getD g dummyNode).players name = none →
        renderAttrVal arena (.deferredP g name) = "UNKNOWN PLAYER: " ++ pyRepr name) ∧
    (∀ (st : PState) (ts data : String) (st' : PState) (ent v : String) (g : Nat),
        tagChangeMatch (pylstrip data) = some (ent, "ENTITY_ID", v) →
        pyIsDigit ent = false → startsWithCh ent '[' = false →
        ent ≠ "GameEntity" → st.game = some g → g < st.arena.length →
        handle_data st ts data = .ok st' →
        dictGet (getN st' g).players ent = some v) := by
  refine ⟨?_, ?_, ?_⟩
  · intro arena g name i h
    simp only [renderAttrVal, h]
  · intro arena g name h
    simp only [renderAttrVal, h]
  · intro st ts data st' ent v g hm h1 h2 h3 h4 h5 h6
    exact tagChange_entity_id_registers hm h1 h2 h3 h4 h5 h6

theorem deferred_reference_rendering_witness :
    renderAttrVal c4state.arena (.deferredP 0 "Alice") = "7" ∧
    renderAttrVal c4nosig.arena (.deferredP 0 "Alice") = "UNKNOWN PLAYER: " ++ pyRepr "Alice" ∧
    dictGet (getN c4state 0).players "Alice" = some "7" ∧
    dictGet (getN c4state 3).attrs "entity" = some (.deferredP 0 "Alice") ∧
    (nodeXml c4state.arena 1 3).attribs =
      [("entity", "7"), ("tag", "FOO"), ("value", "1")] ∧
    (nodeXml c4nosig.arena 1 3).attribs =
      [("entity", "UNKNOWN PLAYER: " ++ pyRepr "Alice"), ("tag", "FOO"), ("value", "1")] :=
  ⟨deferred_reference_rendering.1 c4state.arena 0 "Alice" "7" (by decide),
   deferred_reference_rendering.2.1 c4nosig.arena 0 "Alice" (by decide),
   deferred_reference_rendering.2.2 c4nosig "t5"
     "TAG_CHANGE Entity=Alice tag=ENTITY_ID value=7" c4state "Alice" "7" 0
     (by decide) (by decide) (by decide) (by decide) (by decide) (by decide)
     (by decide),
   by decide, by decide, by decide⟩

/-- C5: over any successful run the number of `CREATE_GAME` markers fed
to the main handler equals the number of `Game` trees appended to the
output sequence, and each `GameEntity EntityID=n` marker line assigns the
root id only as `"1"` — the branch asserts `n = "1"` (raising otherwise)
and records `"1"` as the match root identifier. -/
theorem create_game_count :
    (∀ (lines : List (String × String × String)) (st st' : PState),
        processLines st lines = .ok st' →
        st'.ast.length = st.ast.length + lines.countP isCreateGameLine) ∧
    (∀ (st : PState) (ts i : String) (st' : PState),
        handleGameEntity st ts i = .ok st' →
        i = "1" ∧ ∃ g, st.game = some g ∧
          (g < st.arena.length → (getN st' g).gid = some "1")) ∧
    (∀ (st : PState) (ts i : String), i ≠ "1" →
        handleGameEntity st ts i = .error "AssertionError: id == 1") :=
  ⟨fun _ _ _ h => processLines_count h,
   fun _ _ _ _ h => handleGameEntity_ok h,
   fun _ _ _ h => handleGameEntity_assert h⟩

theorem create_game_count_witness :
    c5state.ast.length = initPState.ast.length + c5lines.countP isCreateGameLine ∧
    ("1" = "1" ∧ ∃ g, c5g1.game = some g ∧
      (g < c5g1.arena.length →
        (getN (exOk (handleGameEntity c5g1 "t2" "1")) g).gid = some "1")) ∧
    handleGameEntity initPState "t9" "2" = .error "AssertionError: id == 1" :=
  ⟨create_game_count.1 c5lines initPState c5state (by decide),
   create_game_count.2.1 c5g1 "t2" "1" (exOk (handleGameEntity c5g1 "t2" "1"))
     (by decide),
   create_game_count.2.2 initPState "t9" "2" (by decide)⟩

/-- C6: a payload line matching none of the grammar rules of its handler is
processed without raising, and leaves every component of the tree and
parse state unchanged (at most a diagnostic line is appended). -/
theorem unmatched_payload_never_raises :
    (∀ (st : PState) (ts data : String),
        actionTagMatch (pylstrip data) = none →
        tagChangeMatch (pylstrip data) = none →
        fullEntity1Match (pylstrip data) = none →
        fullEntity2Match (pylstrip data) = none →
        showEntityMatch (pylstrip data) = none →
        hideEntityMatch (pylstrip data) = none →
        actionStartMatch (pylstrip data) = none →
        metaDataMatch (pylstrip data) = none →
        createGameMatch (pylstrip data) = none →
        playerMatch (pylstrip data) = none →
        pylstrip data ≠ "CREATE_GAME" → pylstrip data ≠ "ACTION_END" →
        ∃ st', handle_data st ts data = .ok st' ∧ coreEq st' st) ∧
    (∀ (st : PState) (ts data : String),
        sendChoicesTypeMatch (pylstrip data) = none →
        sendChoicesEntitiesMatch (pylstrip data) = none →
        ∃ st', handle_send_choices st ts data = .ok st' ∧ coreEq st' st) ∧
    (∀ (st : PState) (ts data : String),
        choicesChoiceMatch (pylstrip data) = none →
        choicesSourceMatch (pylstrip data) = none →
        choicesEntitiesMatch (pylstrip data) = none →
        ∃ st', handle_choices st ts data = .ok st' ∧ coreEq st' st) ∧
    (∀ (st : PState) (ts data : String),
        optionsEntityMatch (pylstrip data) = none →
        optionsOptionMatch (pylstrip data) = none →
        optionsSubOptionMatch (pylstrip data) = none →
        ∃ st', handle_options st ts data = .ok st' ∧ coreEq st' st) ∧
    (∀ (st : PState) (ts data : String),
        sendOptionMatch (pylstrip data) = none →
        ∃ st', handle_send_option st ts data = .ok st' ∧ coreEq st' st) := by
  refine ⟨?_, ?_, ?_, ?_, ?_⟩
  · intro st ts data h1 h2 h3 h4 h5 h6 h7 h8 h9 h10 h11 h12
    exact ⟨_, handle_data_unmatched h1 h2 h3 h4 h5 h6 h7 h8 h9 h10 h11 h12,
      coreEq_pushWarn st _⟩
  · intro st ts data h1 h2
    exact ⟨_, handle_send_choices_unmatched h1 h2, coreEq_pushWarn st _⟩
  · intro st ts data h1 h2 h3
    exact ⟨_, handle_choices_unmatched h1 h2 h3, coreEq_refl st⟩
  · intro st ts data h1 h2 h3
    exact ⟨_, handle_options_unmatched h1 h2 h3, coreEq_pushWarn st _⟩
  · intro st ts data h1
    exact ⟨_, handle_send_option_unmatched h1, coreEq_refl st⟩

theorem unmatched_payload_never_raises_witness :
    (∃ st', handle_data initPState "t" "bogus line" = .ok st' ∧ coreEq st' initPState) ∧
    (∃ st', handle_send_choices initPState "t" "bogus line" = .ok st' ∧
      coreEq st' initPState) ∧
    (∃ st', handle_choices initPState "t" "bogus line" = .ok st' ∧
      coreEq st' initPState) ∧
    (∃ st', handle_options initPState "t" "bogus line" = .ok st' ∧
      coreEq st' initPState) ∧
    (∃ st', handle_send_option initPState "t" "bogus line" = .ok st' ∧
      coreEq st' initPState) :=
  ⟨unmatched_payload_never_raises.1 initPState "t" "bogus line" (by decide)
     (by decide) (by decide) (by decide) (by decide) (by decide) (by decide)
     (by decide) (by decide) (by decide) (by decide) (by decide),
   unmatched_payload_never_raises.2.1 initPState "t" "bogus line" (by decide)
     (by decide),
   unmatched_payload_never_raises.2.2.1 initPState "t" "bogus line" (by decide)
     (by decide) (by decide),
   unmatched_payload_never_raises.2.2.2.1 initPState "t" "bogus line" (by decide)
     (by decide) (by decide),
   unmatched_payload_never_raises.2.2.2.2 initPState "t" "bogus line" (by decide)⟩

/-- C7 (counterexample): the choices and send-option handlers emit no
warning at all on an unmatched payload — processing the unmatched line
`bogus` leaves the state (diagnostic channel included) exactly unchanged,
so no warning identifying the raw payload is emitted in those two
sub-grammars. -/
theorem choices_unmatched_emits_no_warning :
    handle_choices initPState "t" "bogus" = .ok initPState ∧
    handle_send_option initPState "t" "bogus" = .ok initPState ∧
    initPState.stderrLines = [] := by
  refine ⟨by decide, by decide, rfl⟩

/-- C7 (amended): unmatched payloads produce a non-fatal warning naming
the raw payload in the main, send-choices and options sub-grammars, while
the choices and send-option sub-grammars silently ignore unmatched
payloads (no warning). -/
theorem unmatched_warning_coverage :
    (∀ (st : PState) (ts data : String),
        actionTagMatch (pylstrip data) = none →
        tagChangeMatch (pylstrip data) = none →
        fullEntity1Match (pylstrip data) = none →
        fullEntity2Match (pylstrip data) = none →
        showEntityMatch (pylstrip data) = none →
        hideEntityMatch (pylstrip data) = none →
        actionStartMatch (pylstrip data) = none →
        metaDataMatch (pylstrip data) = none →
        createGameMatch (pylstrip data) = none →
        playerMatch (pylstrip data) = none →
        pylstrip data ≠ "CREATE_GAME" → pylstrip data ≠ "ACTION_END" →
        handle_data st ts data =
          .ok (pushWarn st ("Warning: Unhandled data: " ++ pyRepr (pylstrip data) ++ "\n"))) ∧
    (∀ (st : PState) (ts data : String),
        sendChoicesTypeMatch (pylstrip data) = none →
        sendChoicesEntitiesMatch (pylstrip data) = none →
        handle_send_choices st ts data =
          .ok (pushWarn st ("Warning: Unhandled sent choices: " ++ pyRepr (pylstrip data) ++ "\n"))) ∧
    (∀ (st : PState) (ts data : String),
        optionsEntityMatch (pylstrip data) = none →
        optionsOptionMatch (pylstrip data) = none →
        optionsSubOptionMatch (pylstrip data) = none →
        handle_options st ts data =
          .ok (pushWarn st ("Warning: Unimplemented options: " ++ pyRepr (pylstrip data) ++ "\n"))) ∧
    (∀ (st : PState) (ts data : String),
        choicesChoiceMatch (pylstrip data) = none →
        choicesSourceMatch (pylstrip data) = none →
        choicesEntitiesMatch (pylstrip data) = none →
        handle_choices st ts data = .ok st) ∧
    (∀ (st : PState) (ts data : String),
        sendOptionMatch (pylstrip data) = none →
        handle_send_option st ts data = .ok st) :=
  ⟨fun _ _ _ h1 h2 h3 h4 h5 h6 h7 h8 h9 h10 h11 h12 =>
     handle_data_unmatched h1 h2 h3 h4 h5 h6 h7 h8 h9 h10 h11 h12,
   fun _ _ _ h1 h2 => handle_send_choices_unmatched h1 h2,
   fun _ _ _ h1 h2 h3 => handle_options_unmatched h1 h2 h3,
   fun _ _ _ h1 h2 h3 => handle_choices_unmatched h1 h2 h3,
   fun _ _ _ h1 => handle_send_option_unmatched h1⟩

theorem unmatched_warning_coverage_witness :
    handle_data initPState "t" "mystery" =
      .ok (pushWarn initPState ("Warning: Unhandled data: " ++ pyRepr "mystery" ++ "\n")) ∧
    handle_send_choices initPState "t" "mystery" =
      .ok (pushWarn initPState ("Warning: Unhandled sent choices: " ++ pyRepr "mystery" ++ "\n")) ∧
    handle_options initPState "t" "mystery" =
      .ok (pushWarn initPState ("Warning: Unimplemented options: " ++ pyRepr "mystery" ++ "\n")) ∧
    handle_choices initPState "t" "mystery" = .ok initPState ∧
    handle_send_option initPState "t" "mystery" = .ok initPState :=
  ⟨unmatched_warning_coverage.1 initPState "t" "mystery" (by decide) (by decide)
     (by decide) (by decide) (by decide) (by decide) (by decide) (by decide)
     (by decide) (by decide) (by decide) (by decide),
   unmatched_warning_coverage.2.1 initPState "t" "mystery" (by decide) (by decide),
   unmatched_warning_coverage.2.2.1 initPState "t" "mystery" (by decide)
     (by decide) (by decide),
   unmatched_warning_coverage.2.2.2.1 initPState "t" "mystery" (by decide)
     (by decide) (by decide),
   unmatched_warning_coverage.2.2.2.2 initPState "t" "mystery" (by decide)⟩
example : parse_entity initPState "[id=42 extra=stuff]" = .ok (.str "42") := by decide
example : entityREMatch "0" = none := by decide
example : entityREMatch "[name=Foo id=7]" = some "7" := by decide
example : actionTagMatch "tag=CURRENT_PLAYER value=1" = some ("CURRENT_PLAYER", "1") := by decide
example : tagChangeMatch "TAG_CHANGE Entity=Bob tag=CURRENT_PLAYER value=0" =
    some ("Bob", "CURRENT_PLAYER", "0") := by decide
example : actionStartMatch "ACTION_START Entity=1 BlockType=PLAY Index=-1 Target=0" =
    some ("1", "PLAY", "-1", "0") := by decide
example : createGameMatch "GameEntity EntityID=1" = some "1" := by decide
example : playerMatch "Player EntityID=2 PlayerID=1 GameAccountId=[hi=10 lo=20]" =
    some ("2", "1", "10", "20") := by decide
example : fullEntity2Match "FULL_ENTITY - Creating ID=4 CardID=CS2_042" =
    some ("4", some "CS2_042") := by decide
example : fullEntity1Match "FULL_ENTITY - Updating [id=4 cardId= type=INVALID] CardID=" =
    some ("[id=4 cardId= type=INVALID]", none) := by decide

end HSRep
